import Mathlib

/-
  Shallow embedding of src/postfix/src/global/mime_state.c: the streaming
  MIME parser state machine with optional 8-bit to quoted-printable
  downgrading. Byte strings are modelled as List Nat (one Nat per byte).
  The four output sinks are modelled as an event trace returned next to
  the updated state. External collaborators that are part of this
  repository but not under src (rec_type.h, mime_state.h constants,
  is_header.c, header_opts.c, header_token.c) are modelled from the
  specification; each such definition is marked in its doc comment.
-/

/-- Bytes of a string literal, one Nat per character. -/
def bytesOf (s : String) : List Nat := s.data.map Char.toNat

/-- The C library ISSPACE test on a byte (space, tab, LF, VT, FF, CR). -/
def isspaceB (b : Nat) : Bool :=
  b = 32 || b = 9 || b = 10 || b = 11 || b = 12 || b = 13

/-- ASCII lower casing of one byte, as the C tolower does in the C locale. -/
def toLowerB (b : Nat) : Nat := if 65 ≤ b ∧ b ≤ 90 then b + 32 else b

/-- Lower-cased copy of a byte string. -/
def lowerBytes (l : List Nat) : List Nat := l.map toLowerB

/-- The C strcasecmp equality test on two byte strings. -/
def strcaseEq (a b : List Nat) : Bool := lowerBytes a == lowerBytes b

/-- Whether the first byte string is an initial segment of the second:
the C strncmp(second, first, strlen(first)) == 0 test. -/
def startsWithB : List Nat → List Nat → Bool
  | [], _ => true
  | _ :: _, [] => false
  | a :: as, b :: bs => a = b && startsWithB as bs

/- Record types, from rec_type.h (not under src): REC_TYPE_NORM is the
   character N, REC_TYPE_CONT is the character L. Any other record type
   means end of text. The initial prev_rec_type value 0 is neither. -/

def REC_TYPE_NORM : Nat := 78

def REC_TYPE_CONT : Nat := 76

/- Header classes and parser states. MIME_HDR_PRIMARY..MIME_HDR_NESTED come
   from mime_state.h (not under src, values 1..3); the source defines
   MIME_STATE_BODY as MIME_HDR_NESTED + 1. -/

def MIME_HDR_PRIMARY : Nat := 1

def MIME_HDR_MULTIPART : Nat := 2

def MIME_HDR_NESTED : Nat := 3

def MIME_STATE_PRIMARY : Nat := MIME_HDR_PRIMARY

def MIME_STATE_MULTIPART : Nat := MIME_HDR_MULTIPART

def MIME_STATE_NESTED : Nat := MIME_HDR_NESTED

def MIME_STATE_BODY : Nat := MIME_HDR_NESTED + 1

/- Content types and subtypes, from the source. -/

def MIME_CTYPE_OTHER : Nat := 0

def MIME_CTYPE_TEXT : Nat := 1

def MIME_CTYPE_MESSAGE : Nat := 2

def MIME_CTYPE_MULTIPART : Nat := 3

def MIME_STYPE_OTHER : Nat := 0

def MIME_STYPE_PLAIN : Nat := 1

def MIME_STYPE_RFC822 : Nat := 2

def MIME_STYPE_PARTIAL : Nat := 3

def MIME_STYPE_EXTERN_BODY : Nat := 4

/- Encodings and domains, from the source (MIME_ENC_7BIT..BINARY are given
   in mime_state.h, with the values repeated in the source). -/

def MIME_ENC_QP : Nat := 1

def MIME_ENC_BASE64 : Nat := 2

def MIME_ENC_7BIT : Nat := 7

def MIME_ENC_8BIT : Nat := 8

def MIME_ENC_BINARY : Nat := 9

/- Error bits and option bits, from mime_state.h (not under src): distinct
   single bits, OR-ed into masks. -/

def MIME_ERR_NESTING : Nat := 1

def MIME_ERR_TRUNC_HEADER : Nat := 2

def MIME_ERR_8BIT_IN_HEADER : Nat := 4

def MIME_ERR_8BIT_IN_7BIT_BODY : Nat := 8

def MIME_ERR_ENCODING_DOMAIN : Nat := 16

def MIME_OPT_DOWNGRADE : Nat := 1

def MIME_OPT_REPORT_TRUNC_HEADER : Nat := 2

def MIME_OPT_REPORT_8BIT_IN_HEADER : Nat := 4

def MIME_OPT_REPORT_8BIT_IN_7BIT_BODY : Nat := 8

def MIME_OPT_REPORT_ENCODING_DOMAIN : Nat := 16

def MIME_OPT_RECURSE_ALL_MESSAGE : Nat := 32

def MIME_OPT_DISABLE_MIME : Nat := 64

/-- The tunables var_header_limit, var_mime_maxdepth and var_mime_bound_len,
global ints in the source. -/
structure MIME_PARAMS where
  var_header_limit : Nat
  var_mime_maxdepth : Nat
  var_mime_bound_len : Nat
deriving DecidableEq, Repr

/-- One boundary stack entry (struct MIME_STACK). The stored boundary list
is already truncated, so the bound_len field of the source equals its
length. -/
structure MIME_STACK where
  def_ctype : Nat
  def_stype : Nat
  boundary : List Nat
deriving DecidableEq, Repr

/-- The type tag of a header descriptor, from header_opts.h (not under
src). Only the two Content tags drive control flow in the source. -/
inductive HdrType where
  | contentType
  | contentTransferEncoding
deriving DecidableEq, Repr

/-- A header descriptor as returned by the header_opts_find collaborator. -/
structure HeaderInfo where
  name : List Nat
  type : HdrType
deriving DecidableEq, Repr

/-- One call to an output sink, in call order. -/
inductive MimeEvent where
  | headOut (hclass : Nat) (info : Option HeaderInfo) (buf : List Nat)
  | headEnd
  | bodyOut (rec_type : Nat) (buf : List Nat)
  | bodyEnd
deriving DecidableEq, Repr

/-- The struct MIME_STATE of the source. The token scratch buffers are
modelled functionally inside the lexer; the four sink pointers become the
event trace, with two booleans recording whether the optional head_end and
body_end sinks were configured. -/
structure MIME_STATE where
  curr_state : Nat
  curr_ctype : Nat
  curr_stype : Nat
  curr_encoding : Nat
  curr_domain : Nat
  output_buffer : List Nat
  prev_rec_type : Nat
  nesting_level : Nat
  stack : List MIME_STACK
  err_flags : Nat
  static_flags : Nat
  has_head_end : Bool
  has_body_end : Bool
deriving DecidableEq, Repr

/- ------------------------------------------------------------------ -/
/- Header lexer, modelled from the spec.                              -/
/- ------------------------------------------------------------------ -/

def HEADER_TOK_TOKEN : Nat := 256

def HEADER_TOK_QSTRING : Nat := 257

/-- One lexed header token: type is HEADER_TOK_TOKEN, HEADER_TOK_QSTRING,
or the code of a single special character. -/
structure HToken where
  type : Nat
  value : List Nat
deriving DecidableEq, Repr

/-- The RFC 2045 tspecials string passed by the Content-Type analyzer. -/
def RFC2045_TSPECIALS : List Nat := bytesOf "()<>@,;:\\\"/[]?="

/-- The RFC 822 specials used by the lexer when the caller passes a null
specials pointer (the Content-Transfer-Encoding parse). Modelled from the
spec: header_token.c is not under src. -/
def LEX_822_SPECIALS : List Nat := bytesOf "()<>@,;:\\\".[]"

/-- Modelled from the spec: the lexer unquotes quoted-string values,
treating a backslash as an escape for the next byte. Returns the unquoted
value and the input remaining after the closing quote. Fuel bounds the
recursion; callers pass more fuel than there are input bytes. -/
def lexQString : Nat → List Nat → (List Nat × List Nat)
  | _, [] => ([], [])
  | 0, input => ([], input)
  | fuel + 1, 92 :: c :: rest =>
      let r := lexQString fuel rest
      (c :: r.1, r.2)
  | _ + 1, 34 :: rest => ([], rest)
  | fuel + 1, c :: rest =>
      let r := lexQString fuel rest
      (c :: r.1, r.2)

/-- Whether a byte terminates an atom token. -/
def isAtomStop (tspecials : List Nat) (sep : Nat) (b : Nat) : Bool :=
  isspaceB b || b = 34 || tspecials.contains b || b = sep

/-- Modelled from the spec: lex every token of one separator-delimited
group, returning the tokens and the input remaining after the separator.
Linear white space between tokens is skipped; a quoted string yields a
HEADER_TOK_QSTRING token with the unquoted value; a special character
yields a token whose type is that character; any other run of bytes is a
HEADER_TOK_TOKEN atom. -/
def lexGroup (tspecials : List Nat) (sep : Nat) : Nat → List Nat → (List HToken × List Nat)
  | 0, input => ([], input)
  | _, [] => ([], [])
  | fuel + 1, c :: rest =>
      if c = sep then ([], rest)
      else if isspaceB c then lexGroup tspecials sep fuel rest
      else if c = 34 then
        let q := lexQString fuel rest
        let g := lexGroup tspecials sep fuel q.2
        (⟨HEADER_TOK_QSTRING, q.1⟩ :: g.1, g.2)
      else if tspecials.contains c then
        let g := lexGroup tspecials sep fuel rest
        (⟨c, [c]⟩ :: g.1, g.2)
      else
        let atom := (c :: rest).takeWhile (fun b => !(isAtomStop tspecials sep b))
        let g := lexGroup tspecials sep fuel ((c :: rest).drop atom.length)
        (⟨HEADER_TOK_TOKEN, atom⟩ :: g.1, g.2)

/-- Modelled from the spec: header_token lexes up to max tokens of the
next group, advancing the cursor past the separator. The none result
stands for the C return value -1, produced when the cursor is already at
the end of the input; a some result carries at most max tokens and the
remaining input. -/
def header_token (max : Nat) (tspecials : List Nat) (sep : Nat) (input : List Nat) :
    Option (List HToken × List Nat) :=
  if (input.dropWhile isspaceB).isEmpty then none
  else
    let g := lexGroup tspecials sep (input.length + 1) input
    some (g.1.take max, g.2)

/-- Modelled from the spec: is_header returns the length of a valid header
name prefix, or 0. A valid start of a header is a nonempty run of
printable bytes other than the colon, then optional blanks, then a colon;
the returned length covers just the name, as required by the
normalization of the obsolete name-blank-colon form. -/
def is_header (text : List Nat) : Nat :=
  let name := text.takeWhile (fun b => 32 < b && b < 127 && b ≠ 58)
  let rest := (text.drop name.length).dropWhile (fun b => b = 32 || b = 9)
  if 0 < name.length ∧ rest.headD 0 = 58 then name.length else 0

/-- Modelled from the spec: the header_opts(3) descriptor lookup. The name
is everything before the colon; the table entries that drive control flow
in the source are Content-Type and Content-Transfer-Encoding, matched
case-insensitively; every other header is modelled as having no
descriptor. -/
def header_opts_find (buf : List Nat) : Option HeaderInfo :=
  let name := buf.takeWhile (fun b => b ≠ 58)
  if lowerBytes name = bytesOf "content-type" then
    some ⟨name, HdrType.contentType⟩
  else if lowerBytes name = bytesOf "content-transfer-encoding" then
    some ⟨name, HdrType.contentTransferEncoding⟩
  else none

/- ------------------------------------------------------------------ -/
/- Boundary stack.                                                    -/
/- ------------------------------------------------------------------ -/

/-- mime_state_push: refuse with MIME_ERR_NESTING when the nesting level
exceeds var_mime_maxdepth; otherwise bump the level and link a new entry
whose boundary is truncated at var_mime_bound_len bytes. -/
def mime_state_push (p : MIME_PARAMS) (s : MIME_STATE)
    (def_ctype def_stype : Nat) (boundary : List Nat) : MIME_STATE :=
  if s.nesting_level > p.var_mime_maxdepth then
    { s with err_flags := s.err_flags ||| MIME_ERR_NESTING }
  else
    { s with
      nesting_level := s.nesting_level + 1,
      stack := ⟨def_ctype, def_stype, boundary.take p.var_mime_bound_len⟩ :: s.stack }

/-- mime_state_pop: drop the top entry and decrement the level. The empty
case is a msg_panic in the source and unreachable from the callers, which
all pop under a nonempty guard; it is modelled as the identity. -/
def mime_state_pop (s : MIME_STATE) : MIME_STATE :=
  match s.stack with
  | [] => s
  | _ :: rest => { s with nesting_level := s.nesting_level - 1, stack := rest }

/-- Iterated mime_state_pop. -/
def mime_state_popN : Nat → MIME_STATE → MIME_STATE
  | 0, s => s
  | n + 1, s => mime_state_popN n (mime_state_pop s)

/-- The SET_MIME_STATE macro of the source. -/
def set_mime_state (s : MIME_STATE) (st ct sty enc dom : Nat) : MIME_STATE :=
  { s with curr_state := st, curr_ctype := ct, curr_stype := sty,
           curr_encoding := enc, curr_domain := dom }

/-- mime_state_alloc: the machine in its initial state, expecting
text/plain 7-bit content. The two booleans record whether the optional
head_end and body_end sinks were supplied. The source initializes every
volatile member except nesting_level, which only mime_state_push and
mime_state_pop ever write; since mymalloc does not zero memory, the
initial value is indeterminate and is modelled as the caller-supplied
junk_nesting_level. -/
def mime_state_alloc (flags : Nat) (has_head_end has_body_end : Bool)
    (junk_nesting_level : Nat) : MIME_STATE :=
  { curr_state := MIME_STATE_PRIMARY,
    curr_ctype := MIME_CTYPE_TEXT,
    curr_stype := MIME_STYPE_PLAIN,
    curr_encoding := MIME_ENC_7BIT,
    curr_domain := MIME_ENC_7BIT,
    output_buffer := [],
    prev_rec_type := 0,
    nesting_level := junk_nesting_level,
    stack := [],
    err_flags := 0,
    static_flags := flags,
    has_head_end := has_head_end,
    has_body_end := has_body_end }

/- ------------------------------------------------------------------ -/
/- Header analyzers.                                                  -/
/- ------------------------------------------------------------------ -/

/-- The TOKEN_MATCH macro: the token is a HEADER_TOK_TOKEN and its value
equals the text, compared with strcasecmp. -/
def tokenMatch (tok : HToken) (text : String) : Bool :=
  tok.type = HEADER_TOK_TOKEN && strcaseEq tok.value (bytesOf text)

/-- A placeholder token for positional access under a length guard. -/
def dummyTok : HToken := ⟨0, []⟩

/-- The parameter scan of the multipart branch: keep fetching token groups
until the lexer reports end of input, pushing the value of every group of
the shape boundary = value. Fuel bounds the loop; the caller passes more
fuel than there are input bytes. -/
def mime_ctype_param_scan (p : MIME_PARAMS) (def_ctype def_stype : Nat) :
    Nat → MIME_STATE → List Nat → MIME_STATE
  | 0, s, _ => s
  | fuel + 1, s, input =>
      match header_token 3 RFC2045_TSPECIALS 59 input with
      | none => s
      | some (toks, rest) =>
          let s1 :=
            if 3 ≤ toks.length ∧ tokenMatch (toks.getD 0 dummyTok) "boundary"
               ∧ (toks.getD 1 dummyTok).type = 61 then
              mime_state_push p s def_ctype def_stype (toks.getD 2 dummyTok).value
            else s
          mime_ctype_param_scan p def_ctype def_stype fuel s1 rest

/-- mime_state_content_type: skip the header name and the colon, lex the
first token group, and dispatch on the primary type. A first group with no
tokens, or no group at all, sets the content type to Other and leaves the
subtype alone; a nonempty group whose first token matches none of text,
message and multipart leaves the state unchanged. -/
def mime_state_content_type (p : MIME_PARAMS) (s : MIME_STATE)
    (info : HeaderInfo) : MIME_STATE :=
  let cp := s.output_buffer.drop (info.name.length + 1)
  match header_token 3 RFC2045_TSPECIALS 59 cp with
  | some (toks, rest) =>
      if 0 < toks.length then
        let t0 := toks.getD 0 dummyTok
        if tokenMatch t0 "text" then
          { s with curr_ctype := MIME_CTYPE_TEXT,
                   curr_stype :=
                     if 3 ≤ toks.length ∧ (toks.getD 1 dummyTok).type = 47
                        ∧ tokenMatch (toks.getD 2 dummyTok) "plain" then
                       MIME_STYPE_PLAIN
                     else MIME_STYPE_OTHER }
        else if tokenMatch t0 "message" then
          { s with curr_ctype := MIME_CTYPE_MESSAGE,
                   curr_stype :=
                     if 3 ≤ toks.length ∧ (toks.getD 1 dummyTok).type = 47 then
                       if tokenMatch (toks.getD 2 dummyTok) "rfc822" then MIME_STYPE_RFC822
                       else if tokenMatch (toks.getD 2 dummyTok) "partial" then MIME_STYPE_PARTIAL
                       else if tokenMatch (toks.getD 2 dummyTok) "external-body" then MIME_STYPE_EXTERN_BODY
                       else MIME_STYPE_OTHER
                     else MIME_STYPE_OTHER }
        else if tokenMatch t0 "multipart" then
          let defs :=
            if 3 ≤ toks.length ∧ (toks.getD 1 dummyTok).type = 47
               ∧ tokenMatch (toks.getD 2 dummyTok) "digest" then
              (MIME_CTYPE_MESSAGE, MIME_STYPE_RFC822)
            else (MIME_CTYPE_TEXT, MIME_STYPE_PLAIN)
          mime_ctype_param_scan p defs.1 defs.2 (rest.length + 1)
            { s with curr_ctype := MIME_CTYPE_MULTIPART } rest
        else s
      else { s with curr_ctype := MIME_CTYPE_OTHER }
  | none => { s with curr_ctype := MIME_CTYPE_OTHER }

/-- The code_map table of mime_state_content_encoding: token text, the
encoding it selects and the domain it selects. -/
def mime_code_map : List (List Nat × Nat × Nat) :=
  [(bytesOf "7bit", MIME_ENC_7BIT, MIME_ENC_7BIT),
   (bytesOf "8bit", MIME_ENC_8BIT, MIME_ENC_8BIT),
   (bytesOf "binary", MIME_ENC_BINARY, MIME_ENC_BINARY),
   (bytesOf "base64", MIME_ENC_BASE64, MIME_ENC_7BIT),
   (bytesOf "quoted-printable", MIME_ENC_QP, MIME_ENC_7BIT)]

/-- The linear search of the code_map table performed by the for loop of
mime_state_content_encoding. -/
def encLookup : List (List Nat × Nat × Nat) → List Nat → Option (Nat × Nat)
  | [], _ => none
  | e :: rest, v => if strcaseEq v e.1 then some (e.2.1, e.2.2) else encLookup rest v

/-- mime_state_content_encoding: parse one token after the header name and
the colon; when it is a plain token matching a code_map entry, install
that entry, otherwise change nothing. -/
def mime_state_content_encoding (s : MIME_STATE) (info : HeaderInfo) : MIME_STATE :=
  let cp := s.output_buffer.drop (info.name.length + 1)
  match header_token 1 LEX_822_SPECIALS 0 cp with
  | some (tok :: _, _) =>
      if tok.type = HEADER_TOK_TOKEN then
        match encLookup mime_code_map tok.value with
        | some ed => { s with curr_encoding := ed.1, curr_domain := ed.2 }
        | none => s
      else s
  | _ => s

/- ------------------------------------------------------------------ -/
/- Quoted-printable downgrader.                                       -/
/- ------------------------------------------------------------------ -/

def mime_hexchars : List Nat := bytesOf "0123456789ABCDEF"

/-- The QP_ENCODE macro: append an equals sign and two uppercase hex
digits of the byte. -/
def qpEncode (buf : List Nat) (ch : Nat) : List Nat :=
  buf ++ [61, mime_hexchars.getD ((ch >>> 4) &&& 255) 0, mime_hexchars.getD (ch &&& 15) 0]

/-- The per-byte loop of mime_state_downgrade: before each byte, if the
buffer length exceeds 72 emit it with a trailing equals sign as a soft
line break; then append the byte, hex encoded when it is a control byte
other than tab, the equals sign, or above 126. Returns the buffer, the
emitted records and the last byte examined (0 if there was none). -/
def mime_downgrade_loop : List Nat → List Nat → Nat → (List Nat × List MimeEvent × Nat)
  | [], buf, ch => (buf, [], ch)
  | c :: rest, buf, _ =>
      let soft : List Nat × List MimeEvent :=
        if buf.length > 72 then ([], [MimeEvent.bodyOut REC_TYPE_NORM (buf ++ [61])])
        else (buf, [])
      let buf1 :=
        if (c < 32 ∧ c ≠ 9) ∨ c = 61 ∨ c > 126 then qpEncode soft.1 c
        else soft.1 ++ [c]
      let r := mime_downgrade_loop rest buf1 c
      (r.1, soft.2 ++ r.2.1, r.2.2)

/-- mime_state_downgrade: run the byte loop over the record; at the end of
a NORMAL record, protect a trailing space or tab by replacing the literal
with its hex escape, emit the buffer as one NORMAL body record and reset
it. A CONTINUATION record leaves the buffer for the next call. -/
def mime_state_downgrade (s : MIME_STATE) (rec_type : Nat) (text : List Nat) :
    MIME_STATE × List MimeEvent :=
  let r := mime_downgrade_loop text s.output_buffer 0
  if rec_type = REC_TYPE_NORM then
    let buf2 := if r.2.2 = 32 ∨ r.2.2 = 9 then qpEncode r.1.dropLast r.2.2 else r.1
    ({ s with output_buffer := [] },
     r.2.1 ++ [MimeEvent.bodyOut REC_TYPE_NORM buf2])
  else
    ({ s with output_buffer := r.1 }, r.2.1)

/- ------------------------------------------------------------------ -/
/- State machine driver.                                              -/
/- ------------------------------------------------------------------ -/

/-- Continuation append (header states): while the buffer holds fewer than
var_header_limit bytes append the record raw; otherwise discard it and
raise MIME_ERR_TRUNC_HEADER when reporting is enabled. -/
def mime_header_cont_append (p : MIME_PARAMS) (s : MIME_STATE) (text : List Nat) :
    MIME_STATE :=
  if s.output_buffer.length < p.var_header_limit then
    { s with output_buffer := s.output_buffer ++ text }
  else if s.static_flags &&& MIME_OPT_REPORT_TRUNC_HEADER ≠ 0 then
    { s with err_flags := s.err_flags ||| MIME_ERR_TRUNC_HEADER }
  else s

/-- Folded-line append (header states): like the continuation append but
with a newline inserted before the record. -/
def mime_header_fold_append (p : MIME_PARAMS) (s : MIME_STATE) (text : List Nat) :
    MIME_STATE :=
  if s.output_buffer.length < p.var_header_limit then
    { s with output_buffer := s.output_buffer ++ 10 :: text }
  else if s.static_flags &&& MIME_OPT_REPORT_TRUNC_HEADER ≠ 0 then
    { s with err_flags := s.err_flags ||| MIME_ERR_TRUNC_HEADER }
  else s

/-- Whether the descriptor is the Content-Transfer-Encoding one. -/
def infoIsCTE : Option HeaderInfo → Bool
  | some i => i.type = HdrType.contentTransferEncoding
  | none => false

/-- The analyzer dispatch of the header flush: look the header name up
and, unless MIME processing is disabled, run the Content-Type or
Content-Transfer-Encoding analyzer on a matching descriptor. -/
def mime_header_analyze (p : MIME_PARAMS) (s : MIME_STATE) : MIME_STATE :=
  if s.static_flags &&& MIME_OPT_DISABLE_MIME = 0 then
    match header_opts_find s.output_buffer with
    | some i =>
        if i.type = HdrType.contentType then mime_state_content_type p s i
        else if i.type = HdrType.contentTransferEncoding then
          mime_state_content_encoding s i
        else s
    | none => s
  else s

/-- The 8-bit header scan of the header flush: when reporting is on and
the bit is still clear, any buffered byte with the high bit set raises
MIME_ERR_8BIT_IN_HEADER. -/
def mime_header_8bit_check (s : MIME_STATE) : MIME_STATE :=
  if s.static_flags &&& MIME_OPT_REPORT_8BIT_IN_HEADER ≠ 0
     ∧ s.err_flags &&& MIME_ERR_8BIT_IN_HEADER = 0
     ∧ s.output_buffer.any (fun b => b &&& 128 ≠ 0) then
    { s with err_flags := s.err_flags ||| MIME_ERR_8BIT_IN_HEADER }
  else s

/-- The flush of one accumulated logical header: run the descriptor
lookup, dispatch to the analyzers unless MIME is disabled, scan for 8-bit
header bytes when that reporting is on, emit the header through head_out
unless it is a Content-Transfer-Encoding header that downgrading is about
to rewrite, and reset the buffer and the previous record type. The
analyzers read only the current buffer, so recomputing the descriptor
lookup matches the single lookup of the source. -/
def mime_header_flush (p : MIME_PARAMS) (s : MIME_STATE) : MIME_STATE × List MimeEvent :=
  let info := header_opts_find s.output_buffer
  let s2 := mime_header_8bit_check (mime_header_analyze p s)
  let evs :=
    if infoIsCTE info ∧ s2.static_flags &&& MIME_OPT_DOWNGRADE ≠ 0
       ∧ s2.curr_domain ≠ MIME_ENC_7BIT then
      ([] : List MimeEvent)
    else [MimeEvent.headOut s2.curr_state info s2.output_buffer]
  ({ s2 with prev_rec_type := 0, output_buffer := [] }, evs)

/-- Seed the buffer with the start of a new logical header: the name
bytes, then the rest of the record with the blanks of the obsolete
name-blank-colon form removed. -/
def mime_seed_header (s : MIME_STATE) (text : List Nat) : MIME_STATE :=
  let hl := is_header text
  { s with output_buffer := text.take hl ++ (text.drop hl).dropWhile isspaceB }

/-- The bytes of the Content-Transfer-Encoding header synthesized in
downgrade mode: 7bit for message and multipart parents, quoted-printable
for leaf entities. -/
def mime_downgrade_cte_bytes (ctype : Nat) : List Nat :=
  bytesOf "Content-Transfer-Encoding: " ++
    (if ctype = MIME_CTYPE_MESSAGE ∨ ctype = MIME_CTYPE_MULTIPART then bytesOf "7bit"
     else bytesOf "quoted-printable")

/-- The encoding domain checks performed at the end of a header block when
MIME_OPT_REPORT_ENCODING_DOMAIN is set. -/
def mime_encoding_domain_check (s : MIME_STATE) : MIME_STATE :=
  if s.static_flags &&& MIME_OPT_REPORT_ENCODING_DOMAIN ≠ 0 then
    if s.curr_ctype = MIME_CTYPE_MESSAGE then
      if s.curr_stype = MIME_STYPE_PARTIAL ∨ s.curr_stype = MIME_STYPE_EXTERN_BODY then
        if s.curr_domain ≠ MIME_ENC_7BIT then
          { s with err_flags := s.err_flags ||| MIME_ERR_ENCODING_DOMAIN }
        else s
      else if s.curr_encoding ≠ s.curr_domain then
        { s with err_flags := s.err_flags ||| MIME_ERR_ENCODING_DOMAIN }
      else s
    else if s.curr_ctype = MIME_CTYPE_MULTIPART then
      if s.curr_encoding ≠ s.curr_domain then
        { s with err_flags := s.err_flags ||| MIME_ERR_ENCODING_DOMAIN }
      else s
    else s
  else s

/-- The next-state choice for an empty text record that ends a header
block: message with subtype rfc822 (or any message in aggressive mode)
descends into nested headers with reset defaults; multipart enters the
body with Other defaults for the prolog; everything else enters the body
with the current fields kept. -/
def mime_next_state_blank (s : MIME_STATE) : MIME_STATE :=
  if s.curr_ctype = MIME_CTYPE_MESSAGE then
    if s.curr_stype = MIME_STYPE_RFC822
       ∨ s.static_flags &&& MIME_OPT_RECURSE_ALL_MESSAGE ≠ 0 then
      set_mime_state s MIME_STATE_NESTED MIME_CTYPE_TEXT MIME_STYPE_PLAIN
        MIME_ENC_7BIT MIME_ENC_7BIT
    else { s with curr_state := MIME_STATE_BODY }
  else if s.curr_ctype = MIME_CTYPE_MULTIPART then
    set_mime_state s MIME_STATE_BODY MIME_CTYPE_OTHER MIME_STYPE_OTHER
      MIME_ENC_7BIT MIME_ENC_7BIT
  else { s with curr_state := MIME_STATE_BODY }

/-- The actions that end a header block, in source order: the synthesized
Content-Transfer-Encoding header of downgrade mode, the optional head_end
call after the primary block, the encoding domain checks, and the next-state
choice (an invalid nonempty text record forces one empty body line). -/
def mime_header_end_actions (s1 : MIME_STATE) (iit : Bool) (text : List Nat) :
    MIME_STATE × List MimeEvent :=
  let sy :=
    if s1.static_flags &&& MIME_OPT_DOWNGRADE ≠ 0 ∧ s1.curr_domain ≠ MIME_ENC_7BIT then
      ({ s1 with output_buffer := [] },
       [MimeEvent.headOut s1.curr_state none (mime_downgrade_cte_bytes s1.curr_ctype)])
    else (s1, ([] : List MimeEvent))
  let he :=
    if sy.1.curr_state = MIME_STATE_PRIMARY ∧ sy.1.has_head_end then
      [MimeEvent.headEnd]
    else ([] : List MimeEvent)
  let s2 := mime_encoding_domain_check sy.1
  let st :=
    if iit then
      if text = [] then (mime_next_state_blank s2, ([] : List MimeEvent))
      else ({ s2 with curr_state := MIME_STATE_BODY },
            [MimeEvent.bodyOut REC_TYPE_NORM []])
    else ({ s2 with curr_state := MIME_STATE_BODY }, ([] : List MimeEvent))
  (st.1, sy.2 ++ he ++ st.2)

/-- The header-state branch of mime_state_update. The boolean result is
true when the call returns early (continuation or folded append, or a new
header seeded) and false when control falls through into the body branch. -/
def mime_header_case (p : MIME_PARAMS) (s0 : MIME_STATE) (text : List Nat)
    (iit : Bool) : MIME_STATE × List MimeEvent × Bool :=
  if s0.output_buffer ≠ [] ∧ iit ∧ s0.prev_rec_type = REC_TYPE_CONT then
    (mime_header_cont_append p s0 text, [], true)
  else if s0.output_buffer ≠ [] ∧ iit ∧ isspaceB (text.headD 0) then
    (mime_header_fold_append p s0 text, [], true)
  else
    let fl := if s0.output_buffer ≠ [] then mime_header_flush p s0 else (s0, [])
    if iit ∧ 0 < is_header text then
      (mime_seed_header fl.1 text, fl.2, true)
    else
      let ea := mime_header_end_actions fl.1 iit text
      (ea.1, fl.2 ++ ea.2, false)

/-- The 8-bit scan of the body branch: when reporting is on, the current
encoding is 7bit and the error bit is still clear, a record holding a byte
with the high bit set raises MIME_ERR_8BIT_IN_7BIT_BODY. -/
def mime_body_8bit_scan (s : MIME_STATE) (text : List Nat) : MIME_STATE :=
  if s.static_flags &&& MIME_OPT_REPORT_8BIT_IN_7BIT_BODY ≠ 0
     ∧ s.curr_encoding = MIME_ENC_7BIT
     ∧ s.err_flags &&& MIME_ERR_8BIT_IN_7BIT_BODY = 0
     ∧ text.any (fun b => b &&& 128 ≠ 0) then
    { s with err_flags := s.err_flags ||| MIME_ERR_8BIT_IN_7BIT_BODY }
  else s

/-- The boundary search of the body branch: walk the stack from the top
for the first entry whose stored boundary starts the tail; pop every entry
above the match; two dashes right after the matched boundary make a
closing delimiter (pop the match too and enter the body with Other
defaults), anything else makes an opening delimiter (keep the match and
enter the multipart header state with its stored defaults). -/
def mime_stack_find : List MIME_STACK → List Nat → Option Nat
  | [], _ => none
  | e :: rest, tail =>
      if startsWithB e.boundary tail then some 0
      else (mime_stack_find rest tail).map (· + 1)

def mime_boundary_hit (s : MIME_STATE) (tail : List Nat) : MIME_STATE :=
  match mime_stack_find s.stack tail with
  | none => s
  | some i =>
      let s1 := mime_state_popN i s
      match s1.stack with
      | [] => s1
      | sp :: _ =>
          if startsWithB [45, 45] (tail.drop sp.boundary.length) then
            set_mime_state (mime_state_pop s1) MIME_STATE_BODY
              MIME_CTYPE_OTHER MIME_STYPE_OTHER MIME_ENC_7BIT MIME_ENC_7BIT
          else
            set_mime_state s1 MIME_STATE_MULTIPART sp.def_ctype sp.def_stype
              MIME_ENC_7BIT MIME_ENC_7BIT

/-- The body branch of mime_state_update: scan text records for 8-bit
bytes and boundary lines, then route the record through the
quoted-printable downgrader or the raw body_out sink; a non-text record
only triggers the optional body_end sink. The previous record type is
saved on every path. -/
def mime_body_case (s : MIME_STATE) (rec_type : Nat) (text : List Nat)
    (iit : Bool) : MIME_STATE × List MimeEvent :=
  if iit then
    let sa := mime_body_8bit_scan s text
    let sb :=
      if sa.stack ≠ [] ∧ sa.prev_rec_type ≠ REC_TYPE_CONT ∧ text.take 2 = [45, 45] then
        mime_boundary_hit sa (text.drop 2)
      else sa
    let de :=
      if sb.static_flags &&& MIME_OPT_DOWNGRADE ≠ 0 ∧ sb.curr_domain ≠ MIME_ENC_7BIT then
        mime_state_downgrade sb rec_type text
      else (sb, [MimeEvent.bodyOut rec_type text])
    ({ de.1 with prev_rec_type := rec_type }, de.2)
  else
    ({ s with prev_rec_type := rec_type },
     if s.has_body_end then [MimeEvent.bodyEnd] else [])

/-- One pass of the state switch of mime_state_update, without the
dangling-line pre-flush. The unknown-state default is a msg_panic in the
source, unreachable from mime_state_alloc; it is modelled as a no-op. -/
def mime_state_update1 (p : MIME_PARAMS) (s : MIME_STATE) (rec_type : Nat)
    (text : List Nat) : MIME_STATE × List MimeEvent :=
  let iit := rec_type = REC_TYPE_NORM ∨ rec_type = REC_TYPE_CONT
  if s.curr_state = MIME_STATE_PRIMARY ∨ s.curr_state = MIME_STATE_MULTIPART
     ∨ s.curr_state = MIME_STATE_NESTED then
    let hc := mime_header_case p s text iit
    if hc.2.2 then
      ({ hc.1 with prev_rec_type := rec_type }, hc.2.1)
    else
      let bc := mime_body_case hc.1 rec_type text iit
      (bc.1, hc.2.1 ++ bc.2)
  else if s.curr_state = MIME_STATE_BODY then
    mime_body_case s rec_type text iit
  else (s, [])

/-- mime_state_update: when a non-text record arrives while the previous
record was a continuation, first push a synthetic empty NORMAL record
through the machine to terminate the dangling line, then process the
record itself. -/
def mime_state_update (p : MIME_PARAMS) (s : MIME_STATE) (rec_type : Nat)
    (text : List Nat) : MIME_STATE × List MimeEvent :=
  let iit := rec_type = REC_TYPE_NORM ∨ rec_type = REC_TYPE_CONT
  if ¬iit ∧ s.prev_rec_type = REC_TYPE_CONT then
    let r1 := mime_state_update1 p s REC_TYPE_NORM []
    let r2 := mime_state_update1 p r1.1 rec_type text
    (r2.1, r1.2 ++ r2.2)
  else mime_state_update1 p s rec_type text

/-- Fold a whole record sequence through mime_state_update, keeping the
final state. -/
def mime_run (p : MIME_PARAMS) (s : MIME_STATE) (recs : List (Nat × List Nat)) :
    MIME_STATE :=
  recs.foldl (fun t r => (mime_state_update p t r.1 r.2).1) s

/- ------------------------------------------------------------------ -/
/- Theorems.                                                          -/
/- ------------------------------------------------------------------ -/

/-- C10: a refused push changes nothing but the error mask, and no option
flag gates the MIME_ERR_NESTING bit. -/
theorem claim10_push_refusal (p : MIME_PARAMS) (s : MIME_STATE)
    (def_ctype def_stype : Nat) (boundary : List Nat)
    (h : s.nesting_level > p.var_mime_maxdepth) :
    mime_state_push p s def_ctype def_stype boundary
      = { s with err_flags := s.err_flags ||| MIME_ERR_NESTING } := by
  unfold mime_state_push
  rw [if_pos h]

/-- Witness for claim10_push_refusal at a concrete over-deep state. -/
theorem claim10_witness :
    ({ mime_state_alloc 0 false false 0 with nesting_level := 21 } : MIME_STATE).nesting_level
        > (⟨2000, 20, 2000⟩ : MIME_PARAMS).var_mime_maxdepth
    ∧ mime_state_push ⟨2000, 20, 2000⟩
        { mime_state_alloc 0 false false 0 with nesting_level := 21 } 1 1 [120]
      = { ({ mime_state_alloc 0 false false 0 with nesting_level := 21 } : MIME_STATE) with
            err_flags := ({ mime_state_alloc 0 false false 0 with
                              nesting_level := 21 } : MIME_STATE).err_flags ||| MIME_ERR_NESTING } :=
  ⟨by decide,
   claim10_push_refusal ⟨2000, 20, 2000⟩
     { mime_state_alloc 0 false false 0 with nesting_level := 21 } 1 1 [120] (by decide)⟩

/-- C3 counterexample: a Content-Type header whose first token group has
three tokens with the unrecognized primary type application leaves the
current content type Text and subtype Plain, instead of setting both to
Other as the claim states. -/
theorem claim3_cex :
    (header_token 3 RFC2045_TSPECIALS 59
        ((bytesOf "Content-Type: application/pdf").drop
          ((bytesOf "Content-Type").length + 1))).isSome = true
    ∧ (mime_state_content_type ⟨2000, 20, 2000⟩
        { mime_state_alloc 0 false false 0 with
            output_buffer := bytesOf "Content-Type: application/pdf" }
        ⟨bytesOf "Content-Type", HdrType.contentType⟩).curr_ctype = MIME_CTYPE_TEXT
    ∧ (mime_state_content_type ⟨2000, 20, 2000⟩
        { mime_state_alloc 0 false false 0 with
            output_buffer := bytesOf "Content-Type: application/pdf" }
        ⟨bytesOf "Content-Type", HdrType.contentType⟩).curr_stype = MIME_STYPE_PLAIN
    ∧ MIME_CTYPE_TEXT ≠ MIME_CTYPE_OTHER ∧ MIME_STYPE_PLAIN ≠ MIME_STYPE_OTHER := by
  refine ⟨by decide, by decide, by decide, by decide, by decide⟩

/-- C3 as amended: when the first token group of a Content-Type header is
nonempty and its primary type token matches none of text, message and
multipart, the analyzer returns with the whole parser state unchanged. -/
theorem claim3_unrecognized_primary_type (p : MIME_PARAMS) (s : MIME_STATE)
    (info : HeaderInfo) (toks : List HToken) (rest : List Nat)
    (hg : header_token 3 RFC2045_TSPECIALS 59
            (s.output_buffer.drop (info.name.length + 1)) = some (toks, rest))
    (hne : 0 < toks.length)
    (h1 : tokenMatch (toks.getD 0 dummyTok) "text" = false)
    (h2 : tokenMatch (toks.getD 0 dummyTok) "message" = false)
    (h3 : tokenMatch (toks.getD 0 dummyTok) "multipart" = false) :
    mime_state_content_type p s info = s := by
  have n1 : ¬(tokenMatch (toks.getD 0 dummyTok) "text" = true) := by rw [h1]; decide
  have n2 : ¬(tokenMatch (toks.getD 0 dummyTok) "message" = true) := by rw [h2]; decide
  have n3 : ¬(tokenMatch (toks.getD 0 dummyTok) "multipart" = true) := by rw [h3]; decide
  simp only [mime_state_content_type, hg]
  rw [if_pos hne, if_neg n1, if_neg n2, if_neg n3]

/-- Witness for claim3_unrecognized_primary_type on the application/pdf
header. -/
theorem claim3_witness :
    mime_state_content_type ⟨2000, 20, 2000⟩
      { mime_state_alloc 0 false false 0 with
          output_buffer := bytesOf "Content-Type: application/pdf" }
      ⟨bytesOf "Content-Type", HdrType.contentType⟩
    = { mime_state_alloc 0 false false 0 with
          output_buffer := bytesOf "Content-Type: application/pdf" } :=
  claim3_unrecognized_primary_type ⟨2000, 20, 2000⟩
    { mime_state_alloc 0 false false 0 with
        output_buffer := bytesOf "Content-Type: application/pdf" }
    ⟨bytesOf "Content-Type", HdrType.contentType⟩
    [⟨HEADER_TOK_TOKEN, bytesOf "application"⟩, ⟨47, [47]⟩, ⟨HEADER_TOK_TOKEN, bytesOf "pdf"⟩]
    [] (by decide) (by decide) (by decide) (by decide) (by decide)

/-- A text record never triggers the dangling-line pre-flush. -/
lemma update_eq_update1 (p : MIME_PARAMS) (s : MIME_STATE) (rec_type : Nat)
    (text : List Nat) (h : rec_type = REC_TYPE_NORM ∨ rec_type = REC_TYPE_CONT) :
    mime_state_update p s rec_type text = mime_state_update1 p s rec_type text := by
  simp only [mime_state_update]
  rw [if_neg]
  exact fun hc => hc.1 h

/-- C4 counterexample: with var_header_limit 5 and truncation reporting
enabled, a single-record header of 13 bytes is accumulated whole and
flushed whole: head_out sees 13 bytes and the error mask stays zero, even
though the header exceeds the limit. -/
theorem claim4_cex :
    (mime_state_update ⟨5, 20, 2000⟩
        (mime_state_update ⟨5, 20, 2000⟩
          (mime_state_alloc MIME_OPT_REPORT_TRUNC_HEADER false false 0)
          REC_TYPE_NORM (bytesOf "A: 0123456789")).1
        REC_TYPE_NORM []).2.headD MimeEvent.headEnd
      = MimeEvent.headOut MIME_HDR_PRIMARY none (bytesOf "A: 0123456789")
    ∧ (bytesOf "A: 0123456789").length = 13
    ∧ (mime_state_update ⟨5, 20, 2000⟩
        (mime_state_update ⟨5, 20, 2000⟩
          (mime_state_alloc MIME_OPT_REPORT_TRUNC_HEADER false false 0)
          REC_TYPE_NORM (bytesOf "A: 0123456789")).1
        REC_TYPE_NORM []).1.err_flags = 0 := by
  refine ⟨by decide, by decide, by decide⟩

/-- Reduction of the header branch on a continuation record while a
header is accumulated. -/
lemma header_case_cont (p : MIME_PARAMS) (s : MIME_STATE) (text : List Nat)
    (iit : Bool) (hbuf : s.output_buffer ≠ []) (hiit : iit = true)
    (hprev : s.prev_rec_type = REC_TYPE_CONT) :
    mime_header_case p s text iit = (mime_header_cont_append p s text, [], true) := by
  unfold mime_header_case
  rw [if_pos ⟨hbuf, hiit, hprev⟩]

/-- Reduction of the header branch on a folded (leading white space)
record while a header is accumulated. -/
lemma header_case_fold (p : MIME_PARAMS) (s : MIME_STATE) (text : List Nat)
    (iit : Bool) (hbuf : s.output_buffer ≠ []) (hiit : iit = true)
    (hnprev : s.prev_rec_type ≠ REC_TYPE_CONT)
    (hsp : isspaceB (text.headD 0) = true) :
    mime_header_case p s text iit = (mime_header_fold_append p s text, [], true) := by
  unfold mime_header_case
  rw [if_neg (fun hc => hnprev hc.2.2), if_pos ⟨hbuf, hiit, hsp⟩]

/-- C4 as amended: while a header state holds an accumulated header, a
continuation record (or one starting with white space) is appended only
when the buffer is still below var_header_limit; at or above the limit the
incoming bytes are discarded without any emission and
MIME_ERR_TRUNC_HEADER is raised exactly when reporting is enabled. An
accepted append is not clipped, so the buffer itself may end up beyond the
limit. -/
theorem claim4_header_append_cap (p : MIME_PARAMS) (s : MIME_STATE)
    (rec_type : Nat) (text : List Nat)
    (hst : s.curr_state = MIME_STATE_PRIMARY ∨ s.curr_state = MIME_STATE_MULTIPART
           ∨ s.curr_state = MIME_STATE_NESTED)
    (hbuf : s.output_buffer ≠ [])
    (happ : s.prev_rec_type = REC_TYPE_CONT ∨ isspaceB (text.headD 0) = true)
    (hrt : rec_type = REC_TYPE_NORM ∨ rec_type = REC_TYPE_CONT) :
    (mime_state_update p s rec_type text).2 = []
    ∧ (p.var_header_limit ≤ s.output_buffer.length →
        (mime_state_update p s rec_type text).1
          = { s with
                err_flags := s.err_flags |||
                  (if s.static_flags &&& MIME_OPT_REPORT_TRUNC_HEADER ≠ 0 then
                     MIME_ERR_TRUNC_HEADER
                   else 0),
                prev_rec_type := rec_type })
    ∧ (s.output_buffer.length < p.var_header_limit →
        (mime_state_update p s rec_type text).1
          = { s with
                output_buffer := s.output_buffer ++
                  (if s.prev_rec_type = REC_TYPE_CONT then text else 10 :: text),
                prev_rec_type := rec_type }) := by
  rw [update_eq_update1 p s rec_type text hrt]
  have hdec : decide (rec_type = REC_TYPE_NORM ∨ rec_type = REC_TYPE_CONT) = true :=
    decide_eq_true hrt
  simp only [mime_state_update1]
  rw [if_pos hst]
  by_cases hpc : s.prev_rec_type = REC_TYPE_CONT
  · rw [header_case_cont p s text _ hbuf hdec hpc]
    refine ⟨by norm_num, ?_, ?_⟩
    · intro hge
      norm_num [mime_header_cont_append, Nat.not_lt.mpr hge]
      split <;> simp
    · intro hlt
      norm_num [mime_header_cont_append, hlt, hpc]
  · have hsp : isspaceB (text.headD 0) = true := happ.resolve_left hpc
    rw [header_case_fold p s text _ hbuf hdec hpc hsp]
    refine ⟨by norm_num, ?_, ?_⟩
    · intro hge
      norm_num [mime_header_fold_append, Nat.not_lt.mpr hge]
      split <;> simp
    · intro hlt
      norm_num [mime_header_fold_append, hlt, hpc]

/-- Witness for claim4_header_append_cap: a continuation append below the
limit. -/
theorem claim4_witness :
    (mime_state_update ⟨2000, 20, 2000⟩
        { mime_state_alloc 0 false false 0 with
            output_buffer := bytesOf "X: a", prev_rec_type := REC_TYPE_CONT }
        REC_TYPE_CONT [98]).2 = []
    ∧ ((bytesOf "X: a").length < (2000 : Nat) →
        (mime_state_update ⟨2000, 20, 2000⟩
            { mime_state_alloc 0 false false 0 with
                output_buffer := bytesOf "X: a", prev_rec_type := REC_TYPE_CONT }
            REC_TYPE_CONT [98]).1
          = { ({ mime_state_alloc 0 false false 0 with
                   output_buffer := bytesOf "X: a",
                   prev_rec_type := REC_TYPE_CONT } : MIME_STATE) with
                output_buffer := bytesOf "X: a" ++ [98],
                prev_rec_type := REC_TYPE_CONT }) :=
  have h := claim4_header_append_cap ⟨2000, 20, 2000⟩
    { mime_state_alloc 0 false false 0 with
        output_buffer := bytesOf "X: a", prev_rec_type := REC_TYPE_CONT }
    REC_TYPE_CONT [98] (by decide) (by decide) (Or.inl rfl) (Or.inr rfl)
  ⟨h.1, fun _ => by simpa using h.2.2 (by decide)⟩

/-- A value that strcasecmp-matches one text compares to any other text
exactly as the lower-cased texts compare. -/
lemma strcaseEq_shift (v a c : List Nat) (h : strcaseEq v a = true) :
    strcaseEq v c = (lowerBytes a == lowerBytes c) := by
  unfold strcaseEq at *
  rw [eq_of_beq h]

/-- C6: the Content-Transfer-Encoding analyzer parses one token; a plain
token matching a code_map entry case-insensitively installs that entry
(7bit and 8bit and binary map to the identity domain, base64 and
quoted-printable to encodings over the SevenBit domain); any other token,
and any parse that does not yield a plain token, leaves the current
encoding and domain unchanged. -/
theorem claim6_content_encoding (s : MIME_STATE) (info : HeaderInfo)
    (tok : HToken) (ts : List HToken) (r : List Nat)
    (hg : header_token 1 LEX_822_SPECIALS 0
            (s.output_buffer.drop (info.name.length + 1)) = some (tok :: ts, r)) :
    (tok.type = HEADER_TOK_TOKEN →
      (strcaseEq tok.value (bytesOf "7bit") = true →
        mime_state_content_encoding s info
          = { s with curr_encoding := MIME_ENC_7BIT, curr_domain := MIME_ENC_7BIT })
      ∧ (strcaseEq tok.value (bytesOf "8bit") = true →
        mime_state_content_encoding s info
          = { s with curr_encoding := MIME_ENC_8BIT, curr_domain := MIME_ENC_8BIT })
      ∧ (strcaseEq tok.value (bytesOf "binary") = true →
        mime_state_content_encoding s info
          = { s with curr_encoding := MIME_ENC_BINARY, curr_domain := MIME_ENC_BINARY })
      ∧ (strcaseEq tok.value (bytesOf "base64") = true →
        mime_state_content_encoding s info
          = { s with curr_encoding := MIME_ENC_BASE64, curr_domain := MIME_ENC_7BIT })
      ∧ (strcaseEq tok.value (bytesOf "quoted-printable") = true →
        mime_state_content_encoding s info
          = { s with curr_encoding := MIME_ENC_QP, curr_domain := MIME_ENC_7BIT })
      ∧ (strcaseEq tok.value (bytesOf "7bit") = false →
         strcaseEq tok.value (bytesOf "8bit") = false →
         strcaseEq tok.value (bytesOf "binary") = false →
         strcaseEq tok.value (bytesOf "base64") = false →
         strcaseEq tok.value (bytesOf "quoted-printable") = false →
        mime_state_content_encoding s info = s))
    ∧ (tok.type ≠ HEADER_TOK_TOKEN → mime_state_content_encoding s info = s) := by
  constructor
  · intro htk
    have hred : mime_state_content_encoding s info =
        (match encLookup mime_code_map tok.value with
         | some ed => { s with curr_encoding := ed.1, curr_domain := ed.2 }
         | none => s) := by
      simp only [mime_state_content_encoding, hg]
      rw [if_pos htk]
    refine ⟨?_, ?_, ?_, ?_, ?_, ?_⟩
    · intro h1
      rw [hred]
      simp only [mime_code_map, encLookup, h1, if_true]
    · intro h2
      have n1 : strcaseEq tok.value (bytesOf "7bit") = false := by
        rw [strcaseEq_shift _ _ _ h2]; decide
      rw [hred]
      simp only [mime_code_map, encLookup, h2, n1, if_true, if_false,
        Bool.false_eq_true]
    · intro h3
      have n1 : strcaseEq tok.value (bytesOf "7bit") = false := by
        rw [strcaseEq_shift _ _ _ h3]; decide
      have n2 : strcaseEq tok.value (bytesOf "8bit") = false := by
        rw [strcaseEq_shift _ _ _ h3]; decide
      rw [hred]
      simp only [mime_code_map, encLookup, h3, n1, n2, if_true, if_false,
        Bool.false_eq_true]
    · intro h4
      have n1 : strcaseEq tok.value (bytesOf "7bit") = false := by
        rw [strcaseEq_shift _ _ _ h4]; decide
      have n2 : strcaseEq tok.value (bytesOf "8bit") = false := by
        rw [strcaseEq_shift _ _ _ h4]; decide
      have n3 : strcaseEq tok.value (bytesOf "binary") = false := by
        rw [strcaseEq_shift _ _ _ h4]; decide
      rw [hred]
      simp only [mime_code_map, encLookup, h4, n1, n2, n3, if_true, if_false,
        Bool.false_eq_true]
    · intro h5
      have n1 : strcaseEq tok.value (bytesOf "7bit") = false := by
        rw [strcaseEq_shift _ _ _ h5]; decide
      have n2 : strcaseEq tok.value (bytesOf "8bit") = false := by
        rw [strcaseEq_shift _ _ _ h5]; decide
      have n3 : strcaseEq tok.value (bytesOf "binary") = false := by
        rw [strcaseEq_shift _ _ _ h5]; decide
      have n4 : strcaseEq tok.value (bytesOf "base64") = false := by
        rw [strcaseEq_shift _ _ _ h5]; decide
      rw [hred]
      simp only [mime_code_map, encLookup, h5, n1, n2, n3, n4, if_true, if_false,
        Bool.false_eq_true]
    · intro n1 n2 n3 n4 n5
      rw [hred]
      simp only [mime_code_map, encLookup, n1, n2, n3, n4, n5, if_false,
        Bool.false_eq_true]
  · intro htk
    simp only [mime_state_content_encoding, hg]
    rw [if_neg htk]

/-- Witness for claim6_content_encoding on an upper-cased 8BIT header. -/
theorem claim6_witness :
    mime_state_content_encoding
      { mime_state_alloc 0 false false 0 with
          output_buffer := bytesOf "Content-Transfer-Encoding: 8BIT" }
      ⟨bytesOf "Content-Transfer-Encoding", HdrType.contentTransferEncoding⟩
    = { ({ mime_state_alloc 0 false false 0 with
             output_buffer := bytesOf "Content-Transfer-Encoding: 8BIT" } : MIME_STATE) with
          curr_encoding := MIME_ENC_8BIT, curr_domain := MIME_ENC_8BIT } :=
  ((claim6_content_encoding
      { mime_state_alloc 0 false false 0 with
          output_buffer := bytesOf "Content-Transfer-Encoding: 8BIT" }
      ⟨bytesOf "Content-Transfer-Encoding", HdrType.contentTransferEncoding⟩
      ⟨HEADER_TOK_TOKEN, bytesOf "8BIT"⟩ [] [] (by decide)).1 (by decide)).2.1 (by decide)

/-- Popping drops the top stack entry. -/
lemma pop_drop (s : MIME_STATE) : (mime_state_pop s).stack = s.stack.drop 1 := by
  unfold mime_state_pop
  split <;> simp_all

/-- Popping keeps the static flags. -/
lemma pop_static (s : MIME_STATE) : (mime_state_pop s).static_flags = s.static_flags := by
  unfold mime_state_pop
  split <;> rfl

/-- Iterated popping drops that many stack entries. -/
lemma popN_drop (n : Nat) (s : MIME_STATE) :
    (mime_state_popN n s).stack = s.stack.drop n := by
  induction n generalizing s with
  | zero => rfl
  | succ m ih =>
      show (mime_state_popN m (mime_state_pop s)).stack = _
      rw [ih, pop_drop, List.drop_drop]
      congr 1
      omega

/-- Iterated popping keeps the static flags. -/
lemma popN_static (n : Nat) (s : MIME_STATE) :
    (mime_state_popN n s).static_flags = s.static_flags := by
  induction n generalizing s with
  | zero => rfl
  | succ m ih =>
      show (mime_state_popN m (mime_state_pop s)).static_flags = _
      rw [ih, pop_static]

/-- A found index is inside the stack. -/
lemma find_lt (l : List MIME_STACK) (tail : List Nat) (i : Nat)
    (h : mime_stack_find l tail = some i) : i < l.length := by
  induction l generalizing i with
  | nil => simp [mime_stack_find] at h
  | cons e rest ih =>
      unfold mime_stack_find at h
      split at h
      · cases h
        simp
      · cases hr : mime_stack_find rest tail with
        | none => rw [hr] at h; cases h
        | some j =>
            rw [hr] at h
            cases h
            have := ih j hr
            simp
            omega

/-- The search returns the first match: entries above the matching one all
fail the test. -/
lemma find_append (pre : List MIME_STACK) (sp : MIME_STACK) (rest : List MIME_STACK)
    (tail : List Nat)
    (hpre : ∀ e ∈ pre, startsWithB e.boundary tail = false)
    (hsp : startsWithB sp.boundary tail = true) :
    mime_stack_find (pre ++ sp :: rest) tail = some pre.length := by
  induction pre with
  | nil =>
      unfold mime_stack_find
      simp [hsp]
  | cons e pr ih =>
      have he : startsWithB e.boundary tail = false := hpre e (by simp)
      have ihx := ih (fun x hx => hpre x (by simp [hx]))
      simp only [List.cons_append, mime_stack_find, he, Bool.false_eq_true,
        if_false]
      simp [List.append_eq, ihx]

/-- The body 8-bit scan changes at most the error mask. -/
lemma scan8_keep (s : MIME_STATE) (text : List Nat) :
    (mime_body_8bit_scan s text).stack = s.stack
    ∧ (mime_body_8bit_scan s text).prev_rec_type = s.prev_rec_type
    ∧ (mime_body_8bit_scan s text).static_flags = s.static_flags
    ∧ (mime_body_8bit_scan s text).curr_domain = s.curr_domain := by
  unfold mime_body_8bit_scan
  split <;> simp

/-- After a successful boundary match the domain is reset to SevenBit and
the static flags are untouched. -/
lemma hit_domain (s : MIME_STATE) (tail : List Nat) (i : Nat)
    (hfind : mime_stack_find s.stack tail = some i) :
    (mime_boundary_hit s tail).curr_domain = MIME_ENC_7BIT
    ∧ (mime_boundary_hit s tail).static_flags = s.static_flags := by
  have hlt := find_lt _ _ _ hfind
  have hne : (mime_state_popN i s).stack ≠ [] := by
    rw [popN_drop]
    intro hc
    have hle := List.drop_eq_nil_iff.mp hc
    omega
  simp only [mime_boundary_hit, hfind]
  split
  · exact absurd (by assumption) hne
  · split
    · exact ⟨rfl, by simp [set_mime_state, pop_static, popN_static]⟩
    · exact ⟨rfl, by simp [set_mime_state, popN_static]⟩

/-- Full characterization of a boundary match at an arbitrary stack depth:
all entries above the match are gone, and the closing test on the two
bytes after the matched boundary decides between dropping the matched
entry with Other defaults and keeping it while entering the multipart
header state with its stored defaults. -/
lemma hit_match (s : MIME_STATE) (tail : List Nat) (pre : List MIME_STACK)
    (sp : MIME_STACK) (rest : List MIME_STACK)
    (hstack : s.stack = pre ++ sp :: rest)
    (hpre : ∀ e ∈ pre, startsWithB e.boundary tail = false)
    (hsp : startsWithB sp.boundary tail = true) :
    (startsWithB [45, 45] (tail.drop sp.boundary.length) = true →
      (mime_boundary_hit s tail).stack = rest
      ∧ (mime_boundary_hit s tail).curr_state = MIME_STATE_BODY
      ∧ (mime_boundary_hit s tail).curr_ctype = MIME_CTYPE_OTHER
      ∧ (mime_boundary_hit s tail).curr_stype = MIME_STYPE_OTHER)
    ∧ (startsWithB [45, 45] (tail.drop sp.boundary.length) = false →
      (mime_boundary_hit s tail).stack = sp :: rest
      ∧ (mime_boundary_hit s tail).curr_state = MIME_STATE_MULTIPART
      ∧ (mime_boundary_hit s tail).curr_ctype = sp.def_ctype
      ∧ (mime_boundary_hit s tail).curr_stype = sp.def_stype) := by
  have hfind : mime_stack_find s.stack tail = some pre.length := by
    rw [hstack]
    exact find_append pre sp rest tail hpre hsp
  have hs1 : (mime_state_popN pre.length s).stack = sp :: rest := by
    rw [popN_drop, hstack, List.drop_left]
  simp only [mime_boundary_hit, hfind, hs1]
  constructor
  · intro hcl
    simp only [hcl, if_true]
    exact ⟨by simp [set_mime_state, pop_drop, hs1], rfl, rfl, rfl⟩
  · intro hop
    simp only [hop, Bool.false_eq_true, if_false]
    exact ⟨by simp [set_mime_state, hs1], rfl, rfl, rfl⟩

/-- Reduction of a whole update call on a body-state text record that is
not preceded by a continuation and matches a boundary: the state comes
from the boundary processing (which resets the domain to SevenBit) and the
record bytes still go to body_out, never to the downgrader. -/
lemma update_body_boundary (p : MIME_PARAMS) (s : MIME_STATE) (rec_type : Nat)
    (text : List Nat) (i : Nat)
    (hst : s.curr_state = MIME_STATE_BODY)
    (hprev : s.prev_rec_type ≠ REC_TYPE_CONT)
    (hrt : rec_type = REC_TYPE_NORM ∨ rec_type = REC_TYPE_CONT)
    (htake : text.take 2 = [45, 45])
    (hfind : mime_stack_find s.stack (text.drop 2) = some i) :
    mime_state_update p s rec_type text
      = ({ mime_boundary_hit (mime_body_8bit_scan s text) (text.drop 2) with
             prev_rec_type := rec_type },
         [MimeEvent.bodyOut rec_type text]) := by
  have hdec : decide (rec_type = REC_TYPE_NORM ∨ rec_type = REC_TYPE_CONT) = true :=
    decide_eq_true hrt
  have hsne : s.stack ≠ [] := by
    intro hc
    rw [hc] at hfind
    simp [mime_stack_find] at hfind
  have hkeep := scan8_keep s text
  have hfind2 : mime_stack_find (mime_body_8bit_scan s text).stack (text.drop 2)
      = some i := by rw [hkeep.1]; exact hfind
  have hdom := hit_domain (mime_body_8bit_scan s text) (text.drop 2) i hfind2
  have h1 : (mime_body_8bit_scan s text).stack ≠ [] := by
    rw [hkeep.1]; exact hsne
  have h2 : (mime_body_8bit_scan s text).prev_rec_type ≠ REC_TYPE_CONT := by
    rw [hkeep.2.1]; exact hprev
  rw [update_eq_update1 p s rec_type text hrt]
  simp only [mime_state_update1]
  rw [if_neg (by rw [hst]; decide), if_pos hst]
  simp [mime_body_case, hdec, h1, h2, htake, hdom.1]

/-- C1 counterexample: a body record matching the stacked boundary x is
still delivered to body_out, contradicting the claim that the record
bytes reach neither body_out nor the downgrader. -/
theorem claim1_cex :
    startsWithB [120] ((bytesOf "--x").drop 2) = true
    ∧ (mime_state_update ⟨2000, 20, 2000⟩
        { mime_state_alloc 0 false false 0 with
            curr_state := MIME_STATE_BODY, nesting_level := 1,
            stack := [⟨MIME_CTYPE_TEXT, MIME_STYPE_PLAIN, [120]⟩] }
        REC_TYPE_NORM (bytesOf "--x")).2
      = [MimeEvent.bodyOut REC_TYPE_NORM (bytesOf "--x")]
    ∧ (mime_state_update ⟨2000, 20, 2000⟩
        { mime_state_alloc 0 false false 0 with
            curr_state := MIME_STATE_BODY, nesting_level := 1,
            stack := [⟨MIME_CTYPE_TEXT, MIME_STYPE_PLAIN, [120]⟩] }
        REC_TYPE_NORM (bytesOf "--x")).1.curr_state = MIME_STATE_MULTIPART := by
  refine ⟨by decide, by decide, by decide⟩

/-- C1 as amended: a body-state text record that is not preceded by a
continuation, starts with two dashes and matches a stacked boundary is
processed as a boundary and is then still emitted, exactly once and
unmodified, through body_out; the quoted-printable downgrader is never
invoked for it because the boundary processing resets the domain to
SevenBit. -/
theorem claim1_boundary_record_emitted (p : MIME_PARAMS) (s : MIME_STATE)
    (rec_type : Nat) (text : List Nat) (i : Nat)
    (hst : s.curr_state = MIME_STATE_BODY)
    (hprev : s.prev_rec_type ≠ REC_TYPE_CONT)
    (hrt : rec_type = REC_TYPE_NORM ∨ rec_type = REC_TYPE_CONT)
    (htake : text.take 2 = [45, 45])
    (hfind : mime_stack_find s.stack (text.drop 2) = some i) :
    (mime_state_update p s rec_type text).2
      = [MimeEvent.bodyOut rec_type text] := by
  rw [update_body_boundary p s rec_type text i hst hprev hrt htake hfind]

/-- Witness for claim1_boundary_record_emitted. -/
theorem claim1_witness :
    (mime_state_update ⟨2000, 20, 2000⟩
        { mime_state_alloc 0 false false 0 with
            curr_state := MIME_STATE_BODY, nesting_level := 1,
            stack := [⟨MIME_CTYPE_TEXT, MIME_STYPE_PLAIN, [120]⟩] }
        REC_TYPE_NORM [45, 45, 120]).2
      = [MimeEvent.bodyOut REC_TYPE_NORM [45, 45, 120]] :=
  claim1_boundary_record_emitted ⟨2000, 20, 2000⟩
    { mime_state_alloc 0 false false 0 with
        curr_state := MIME_STATE_BODY, nesting_level := 1,
        stack := [⟨MIME_CTYPE_TEXT, MIME_STYPE_PLAIN, [120]⟩] }
    REC_TYPE_NORM [45, 45, 120] 0 (by decide) (by decide) (Or.inl rfl)
    (by decide) (by decide)

/-- C9: a boundary match below the top of the stack pops every entry above
the match before the closing-versus-opening decision, which is then taken
on the matched entry alone. -/
theorem claim9_unwind_to_match (p : MIME_PARAMS) (s : MIME_STATE)
    (rec_type : Nat) (text : List Nat) (pre : List MIME_STACK)
    (sp : MIME_STACK) (rest : List MIME_STACK)
    (hst : s.curr_state = MIME_STATE_BODY)
    (hprev : s.prev_rec_type ≠ REC_TYPE_CONT)
    (hrt : rec_type = REC_TYPE_NORM ∨ rec_type = REC_TYPE_CONT)
    (htake : text.take 2 = [45, 45])
    (hstack : s.stack = pre ++ sp :: rest)
    (hpre : ∀ e ∈ pre, startsWithB e.boundary (text.drop 2) = false)
    (hsp : startsWithB sp.boundary (text.drop 2) = true) :
    (startsWithB [45, 45] ((text.drop 2).drop sp.boundary.length) = true →
      (mime_state_update p s rec_type text).1.stack = rest
      ∧ (mime_state_update p s rec_type text).1.curr_state = MIME_STATE_BODY
      ∧ (mime_state_update p s rec_type text).1.curr_ctype = MIME_CTYPE_OTHER
      ∧ (mime_state_update p s rec_type text).1.curr_stype = MIME_STYPE_OTHER)
    ∧ (startsWithB [45, 45] ((text.drop 2).drop sp.boundary.length) = false →
      (mime_state_update p s rec_type text).1.stack = sp :: rest
      ∧ (mime_state_update p s rec_type text).1.curr_state = MIME_STATE_MULTIPART
      ∧ (mime_state_update p s rec_type text).1.curr_ctype = sp.def_ctype
      ∧ (mime_state_update p s rec_type text).1.curr_stype = sp.def_stype) := by
  have hkeep := scan8_keep s text
  have hstack2 : (mime_body_8bit_scan s text).stack = pre ++ sp :: rest := by
    rw [hkeep.1, hstack]
  have hfind : mime_stack_find s.stack (text.drop 2) = some pre.length := by
    rw [hstack]
    exact find_append pre sp rest (text.drop 2) hpre hsp
  have hm := hit_match (mime_body_8bit_scan s text) (text.drop 2) pre sp rest
    hstack2 hpre hsp
  rw [update_body_boundary p s rec_type text pre.length hst hprev hrt htake hfind]
  constructor
  · intro hcl
    exact (hm.1 hcl)
  · intro hop
    exact (hm.2 hop)

/-- Witness for claim9_unwind_to_match: a match at depth two under an
unmatched top entry opens a sibling part with the stored defaults. -/
theorem claim9_witness :
    (mime_state_update ⟨2000, 20, 2000⟩
        { mime_state_alloc 0 false false 0 with
            curr_state := MIME_STATE_BODY, nesting_level := 2,
            stack := [⟨MIME_CTYPE_TEXT, MIME_STYPE_PLAIN, [97]⟩,
                      ⟨MIME_CTYPE_MESSAGE, MIME_STYPE_RFC822, [120]⟩] }
        REC_TYPE_NORM (bytesOf "--x")).1.stack
      = [⟨MIME_CTYPE_MESSAGE, MIME_STYPE_RFC822, [120]⟩]
    ∧ (mime_state_update ⟨2000, 20, 2000⟩
        { mime_state_alloc 0 false false 0 with
            curr_state := MIME_STATE_BODY, nesting_level := 2,
            stack := [⟨MIME_CTYPE_TEXT, MIME_STYPE_PLAIN, [97]⟩,
                      ⟨MIME_CTYPE_MESSAGE, MIME_STYPE_RFC822, [120]⟩] }
        REC_TYPE_NORM (bytesOf "--x")).1.curr_state = MIME_STATE_MULTIPART
    ∧ (mime_state_update ⟨2000, 20, 2000⟩
        { mime_state_alloc 0 false false 0 with
            curr_state := MIME_STATE_BODY, nesting_level := 2,
            stack := [⟨MIME_CTYPE_TEXT, MIME_STYPE_PLAIN, [97]⟩,
                      ⟨MIME_CTYPE_MESSAGE, MIME_STYPE_RFC822, [120]⟩] }
        REC_TYPE_NORM (bytesOf "--x")).1.curr_ctype = MIME_CTYPE_MESSAGE
    ∧ (mime_state_update ⟨2000, 20, 2000⟩
        { mime_state_alloc 0 false false 0 with
            curr_state := MIME_STATE_BODY, nesting_level := 2,
            stack := [⟨MIME_CTYPE_TEXT, MIME_STYPE_PLAIN, [97]⟩,
                      ⟨MIME_CTYPE_MESSAGE, MIME_STYPE_RFC822, [120]⟩] }
        REC_TYPE_NORM (bytesOf "--x")).1.curr_stype = MIME_STYPE_RFC822 :=
  (claim9_unwind_to_match ⟨2000, 20, 2000⟩
    { mime_state_alloc 0 false false 0 with
        curr_state := MIME_STATE_BODY, nesting_level := 2,
        stack := [⟨MIME_CTYPE_TEXT, MIME_STYPE_PLAIN, [97]⟩,
                  ⟨MIME_CTYPE_MESSAGE, MIME_STYPE_RFC822, [120]⟩] }
    REC_TYPE_NORM (bytesOf "--x") [⟨MIME_CTYPE_TEXT, MIME_STYPE_PLAIN, [97]⟩]
    ⟨MIME_CTYPE_MESSAGE, MIME_STYPE_RFC822, [120]⟩ []
    (by decide) (by decide) (Or.inl rfl) (by decide) (by decide)
    (by decide) (by decide)).2 (by decide)

/-- A byte kept literal by the downgrader: not a control byte other than
tab, not the equals sign, not above 126. -/
def qpLiteral (b : Nat) : Prop := ¬((b < 32 ∧ b ≠ 9) ∨ b = 61 ∨ b > 126)

instance (b : Nat) : Decidable (qpLiteral b) := by
  unfold qpLiteral
  infer_instance

/-- The downgrade loop copies literal bytes verbatim and emits nothing as
long as the buffer cannot reach the soft-break threshold. -/
lemma downgrade_loop_literal (text buf : List Nat) (ch : Nat)
    (hlit : ∀ b ∈ text, qpLiteral b)
    (hlen : buf.length + text.length ≤ 73) :
    mime_downgrade_loop text buf ch = (buf ++ text, [], text.getLastD ch) := by
  induction text generalizing buf ch with
  | nil => simp [mime_downgrade_loop]
  | cons c rest ih =>
      have hc : qpLiteral c := hlit c (by simp)
      have hrest : ∀ b ∈ rest, qpLiteral b := fun b hb => hlit b (by simp [hb])
      have hnb : ¬(buf.length > 72) := by
        simp only [List.length_cons] at hlen
        omega
      have hcc : ¬((c < 32 ∧ c ≠ 9) ∨ c = 61 ∨ c > 126) := hc
      simp only [mime_downgrade_loop, if_neg hnb, if_neg hcc]
      have hl2 : (buf ++ [c]).length + rest.length ≤ 73 := by
        simp only [List.length_append, List.length_cons, List.length_nil] at *
        omega
      rw [ih (buf ++ [c]) c hrest hl2]
      cases rest with
      | nil => simp
      | cons h t =>
          simp [List.getLast?_eq_getLast_of_ne_nil (List.cons_ne_nil h t)]

/-- C5 counterexample: the two-byte record of a letter and a space is made
of printable bytes without the equals sign and is well under 72 bytes,
yet the downgrader emits a=20 rather than the input itself, because of
the trailing white space protection. -/
theorem claim5_cex :
    (∀ b ∈ [97, 32], 32 ≤ b ∧ b ≤ 126 ∧ b ≠ 61)
    ∧ ([97, 32] : List Nat).length ≤ 72
    ∧ (mime_state_downgrade (mime_state_alloc MIME_OPT_DOWNGRADE false false 0)
        REC_TYPE_NORM [97, 32]).2
      = [MimeEvent.bodyOut REC_TYPE_NORM [97, 61, 50, 48]]
    ∧ [97, 61, 50, 48] ≠ ([97, 32] : List Nat) := by
  refine ⟨by decide, by decide, by decide, by decide⟩

/-- C5 as amended: a NORMAL record of at most 72 printable bytes without
the equals sign whose last byte is not the space character is emitted by
the downgrader, run on an empty buffer, as exactly one NORMAL body record
holding exactly the input bytes, with no soft line break and an empty
buffer left behind. -/
theorem claim5_qp_identity (s : MIME_STATE) (text : List Nat)
    (hbuf : s.output_buffer = [])
    (hlen : text.length ≤ 72)
    (hpr : ∀ b ∈ text, 32 ≤ b ∧ b ≤ 126 ∧ b ≠ 61)
    (hsp : text.getLastD 0 ≠ 32) :
    mime_state_downgrade s REC_TYPE_NORM text
      = ({ s with output_buffer := [] }, [MimeEvent.bodyOut REC_TYPE_NORM text]) := by
  have hlit : ∀ b ∈ text, qpLiteral b := by
    intro b hb
    have := hpr b hb
    unfold qpLiteral
    omega
  have hlast : text.getLastD 0 ≠ 32 ∧ text.getLastD 0 ≠ 9 := by
    constructor
    · exact hsp
    · cases ht : text.getLast? with
      | none =>
          have : text = [] := List.getLast?_eq_none_iff.mp ht
          simp [this, List.getLastD]
      | some v =>
          have hv : v ∈ text := by
            obtain ⟨hne, hx⟩ :=
              List.mem_getLast?_eq_getLast (Option.mem_def.mpr ht)
            rw [hx]
            exact List.getLast_mem hne
          have := (hpr v hv).1
          have hd : text.getLastD 0 = v := by
            rw [List.getLastD_eq_getLast?, ht]
            rfl
          rw [hd]
          omega
  unfold mime_state_downgrade
  rw [downgrade_loop_literal text s.output_buffer 0 hlit
        (by rw [hbuf]; simp only [List.length_nil, Nat.zero_add]; omega)]
  rw [if_pos rfl, hbuf]
  have hno : ¬(text.getLastD 0 = 32 ∨ text.getLastD 0 = 9) := by
    intro hc
    cases hc with
    | inl h => exact hlast.1 h
    | inr h => exact hlast.2 h
  rw [if_neg hno]
  simp

/-- Witness for claim5_qp_identity on the record hello. -/
theorem claim5_witness :
    mime_state_downgrade (mime_state_alloc MIME_OPT_DOWNGRADE false false 0)
        REC_TYPE_NORM (bytesOf "hello")
      = ({ mime_state_alloc MIME_OPT_DOWNGRADE false false 0 with output_buffer := [] },
         [MimeEvent.bodyOut REC_TYPE_NORM (bytesOf "hello")]) :=
  claim5_qp_identity (mime_state_alloc MIME_OPT_DOWNGRADE false false 0)
    (bytesOf "hello") rfl (by decide) (by decide) (by decide)

/-- Pushing never changes the static flags. -/
lemma push_static (p : MIME_PARAMS) (s : MIME_STATE) (a b : Nat) (c : List Nat) :
    (mime_state_push p s a b c).static_flags = s.static_flags := by
  unfold mime_state_push
  split <;> rfl

/-- The boundary parameter scan never changes the static flags. -/
lemma param_scan_static (p : MIME_PARAMS) (a b : Nat) (fuel : Nat) (s : MIME_STATE)
    (input : List Nat) :
    (mime_ctype_param_scan p a b fuel s input).static_flags = s.static_flags := by
  induction fuel generalizing s input with
  | zero => rfl
  | succ n ih =>
      unfold mime_ctype_param_scan
      cases h : header_token 3 RFC2045_TSPECIALS 59 input with
      | none => rfl
      | some g =>
          obtain ⟨toks, rest⟩ := g
          dsimp only
          split
          · rw [ih, push_static]
          · rw [ih]

/-- The Content-Type analyzer never changes the static flags. -/
lemma content_type_static (p : MIME_PARAMS) (s : MIME_STATE) (info : HeaderInfo) :
    (mime_state_content_type p s info).static_flags = s.static_flags := by
  cases h : header_token 3 RFC2045_TSPECIALS 59
      (s.output_buffer.drop (info.name.length + 1)) with
  | none => simp [mime_state_content_type, h]
  | some g =>
      obtain ⟨toks, rest⟩ := g
      simp only [mime_state_content_type, h]
      split_ifs <;> first
        | rfl
        | (rw [param_scan_static])
        | simp [param_scan_static]

/-- The Content-Transfer-Encoding analyzer never changes the static
flags. -/
lemma content_encoding_static (s : MIME_STATE) (info : HeaderInfo) :
    (mime_state_content_encoding s info).static_flags = s.static_flags := by
  cases h : header_token 1 LEX_822_SPECIALS 0
      (s.output_buffer.drop (info.name.length + 1)) with
  | none => simp [mime_state_content_encoding, h]
  | some g =>
      obtain ⟨toks, rest⟩ := g
      cases toks with
      | nil => simp [mime_state_content_encoding, h]
      | cons tok ts =>
          simp only [mime_state_content_encoding, h]
          split_ifs
          · cases he : encLookup mime_code_map tok.value with
            | none => rfl
            | some ed => rfl
          · rfl

/-- The analyzer dispatch never changes the static flags. -/
lemma analyze_static (p : MIME_PARAMS) (s : MIME_STATE) :
    (mime_header_analyze p s).static_flags = s.static_flags := by
  unfold mime_header_analyze
  split
  · cases h : header_opts_find s.output_buffer with
    | none => rfl
    | some i =>
        dsimp only
        split_ifs <;> first
          | rfl
          | rw [content_type_static]
          | rw [content_encoding_static]
  · rfl

/-- The 8-bit header check never changes the static flags. -/
lemma check8_static (s : MIME_STATE) :
    (mime_header_8bit_check s).static_flags = s.static_flags := by
  unfold mime_header_8bit_check
  split <;> rfl

/-- The synthesized header bytes spelled out. -/
lemma cte_bytes_eq (c : Nat) :
    mime_downgrade_cte_bytes c
      = (if c = MIME_CTYPE_MESSAGE ∨ c = MIME_CTYPE_MULTIPART then
           bytesOf "Content-Transfer-Encoding: 7bit"
         else bytesOf "Content-Transfer-Encoding: quoted-printable") := by
  unfold mime_downgrade_cte_bytes
  split
  · decide
  · decide

/-- Reduction of the header branch when no header is buffered and the
record does not start a new header: control runs the end-of-header-block
actions and falls through to the body branch. -/
lemma header_case_endblock (p : MIME_PARAMS) (s : MIME_STATE) (text : List Nat)
    (iit : Bool) (hbuf : s.output_buffer = [])
    (hnh : ¬(iit = true ∧ 0 < is_header text)) :
    mime_header_case p s text iit
      = ((mime_header_end_actions s iit text).1,
         (mime_header_end_actions s iit text).2, false) := by
  unfold mime_header_case
  rw [if_neg (fun hc => hc.1 hbuf), if_neg (fun hc => hc.1 hbuf)]
  rw [if_neg hnh, if_neg (fun hb : s.output_buffer ≠ [] => hb hbuf)]
  simp

/-- C8: with downgrading active and a non-SevenBit domain, (a) the flush
of a Content-Transfer-Encoding header calls no sink at all, and (b) the
update that ends the header block first calls head_out with a null
descriptor carrying Content-Transfer-Encoding: 7bit for Message and
Multipart entities and Content-Transfer-Encoding: quoted-printable
otherwise. -/
theorem claim8_downgrade_cte :
    (∀ (p : MIME_PARAMS) (s : MIME_STATE) (i : HeaderInfo),
      header_opts_find s.output_buffer = some i →
      i.type = HdrType.contentTransferEncoding →
      s.static_flags &&& MIME_OPT_DOWNGRADE ≠ 0 →
      (mime_header_flush p s).1.curr_domain ≠ MIME_ENC_7BIT →
      (mime_header_flush p s).2 = [])
    ∧ (∀ (p : MIME_PARAMS) (s : MIME_STATE),
      (s.curr_state = MIME_STATE_PRIMARY ∨ s.curr_state = MIME_STATE_MULTIPART
       ∨ s.curr_state = MIME_STATE_NESTED) →
      s.output_buffer = [] →
      s.static_flags &&& MIME_OPT_DOWNGRADE ≠ 0 →
      s.curr_domain ≠ MIME_ENC_7BIT →
      ((mime_state_update p s REC_TYPE_NORM []).2).headD MimeEvent.headEnd
        = MimeEvent.headOut s.curr_state none
            (if s.curr_ctype = MIME_CTYPE_MESSAGE ∨ s.curr_ctype = MIME_CTYPE_MULTIPART then
               bytesOf "Content-Transfer-Encoding: 7bit"
             else bytesOf "Content-Transfer-Encoding: quoted-printable")) := by
  constructor
  · intro p s i hinfo hty hdown hdom
    have hstat : (mime_header_8bit_check (mime_header_analyze p s)).static_flags
        = s.static_flags := by
      rw [check8_static, analyze_static]
    have hcte : infoIsCTE (header_opts_find s.output_buffer) = true := by
      rw [hinfo]
      simp [infoIsCTE, hty]
    simp only [mime_header_flush] at hdom ⊢
    rw [if_pos ⟨hcte, by rw [hstat]; exact hdown, hdom⟩]
  · intro p s hst hbuf hdown hdom
    rw [update_eq_update1 p s REC_TYPE_NORM [] (Or.inl rfl)]
    simp only [mime_state_update1]
    rw [if_pos hst,
        header_case_endblock p s [] _ hbuf (by intro hc; simp [is_header] at hc)]
    simp [mime_header_end_actions, hdown, hdom, cte_bytes_eq]

/-- Witness for claim8_downgrade_cte: a suppressed 8bit header and a
synthesized quoted-printable replacement for a text leaf. -/
theorem claim8_witness :
    (mime_header_flush ⟨2000, 20, 2000⟩
        { mime_state_alloc MIME_OPT_DOWNGRADE false false 0 with
            output_buffer := bytesOf "Content-Transfer-Encoding: 8bit" }).2 = []
    ∧ ((mime_state_update ⟨2000, 20, 2000⟩
          { mime_state_alloc MIME_OPT_DOWNGRADE false false 0 with
              curr_encoding := MIME_ENC_8BIT, curr_domain := MIME_ENC_8BIT }
          REC_TYPE_NORM []).2).headD MimeEvent.headEnd
      = MimeEvent.headOut
          ({ mime_state_alloc MIME_OPT_DOWNGRADE false false 0 with
               curr_encoding := MIME_ENC_8BIT,
               curr_domain := MIME_ENC_8BIT } : MIME_STATE).curr_state none
          (if ({ mime_state_alloc MIME_OPT_DOWNGRADE false false 0 with
                   curr_encoding := MIME_ENC_8BIT,
                   curr_domain := MIME_ENC_8BIT } : MIME_STATE).curr_ctype
                = MIME_CTYPE_MESSAGE
              ∨ ({ mime_state_alloc MIME_OPT_DOWNGRADE false false 0 with
                     curr_encoding := MIME_ENC_8BIT,
                     curr_domain := MIME_ENC_8BIT } : MIME_STATE).curr_ctype
                = MIME_CTYPE_MULTIPART then
             bytesOf "Content-Transfer-Encoding: 7bit"
           else bytesOf "Content-Transfer-Encoding: quoted-printable") :=
  ⟨claim8_downgrade_cte.1 ⟨2000, 20, 2000⟩
     { mime_state_alloc MIME_OPT_DOWNGRADE false false 0 with
         output_buffer := bytesOf "Content-Transfer-Encoding: 8bit" }
     ⟨bytesOf "Content-Transfer-Encoding", HdrType.contentTransferEncoding⟩
     (by decide) rfl (by decide) (by decide),
   claim8_downgrade_cte.2 ⟨2000, 20, 2000⟩
     { mime_state_alloc MIME_OPT_DOWNGRADE false false 0 with
         curr_encoding := MIME_ENC_8BIT, curr_domain := MIME_ENC_8BIT }
     (Or.inl rfl) rfl (by decide) (by decide)⟩

/- ------------------------------------------------------------------ -/
/- The reachable-state invariant behind C2 and C7.                    -/
/- ------------------------------------------------------------------ -/

/-- The invariant maintained by every machine operation, relative to the
indeterminate allocation value junk of the nesting level: the nesting
level stays the stack depth shifted by junk, stays below both bounds a
push run and the junk itself can give it, and the encoding domain is one
of the three domain values. -/
def StackDomOK (p : MIME_PARAMS) (junk : Nat) (s : MIME_STATE) : Prop :=
  s.nesting_level = s.stack.length + junk
  ∧ s.nesting_level ≤ max (p.var_mime_maxdepth + 1) junk
  ∧ (s.curr_domain = MIME_ENC_7BIT ∨ s.curr_domain = MIME_ENC_8BIT
     ∨ s.curr_domain = MIME_ENC_BINARY)

/-- Transfer of the invariant along a step that leaves the level, the
stack and the domain alone. -/
lemma ok_carry {p : MIME_PARAMS} {junk : Nat} {s t : MIME_STATE}
    (hn : t.nesting_level = s.nesting_level) (hk : t.stack = s.stack)
    (hd : t.curr_domain = s.curr_domain) (h : StackDomOK p junk s) : StackDomOK p junk t := by
  unfold StackDomOK at *
  rw [hn, hk, hd]
  exact h

lemma ok_push (p : MIME_PARAMS) {junk : Nat} (s : MIME_STATE) (a b : Nat) (c : List Nat)
    (h : StackDomOK p junk s) : StackDomOK p junk (mime_state_push p s a b c) := by
  unfold mime_state_push
  split
  · exact h
  · rename_i hle
    have h1 := h.1
    have h2 := h.2.1
    refine ⟨?_, ?_, h.2.2⟩
    · dsimp only
      simp only [List.length_cons]
      omega
    · dsimp only
      exact le_trans (by omega : s.nesting_level + 1 ≤ p.var_mime_maxdepth + 1)
        (le_max_left (p.var_mime_maxdepth + 1) junk)

lemma ok_pop (p : MIME_PARAMS) {junk : Nat} (s : MIME_STATE) (h : StackDomOK p junk s) :
    StackDomOK p junk (mime_state_pop s) := by
  unfold mime_state_pop
  split
  · exact h
  · rename_i l rest heq
    have h1 := h.1
    rw [heq] at h1
    simp only [List.length_cons] at h1
    refine ⟨?_, ?_, h.2.2⟩
    · show s.nesting_level - 1 = rest.length + junk
      omega
    · exact le_trans (Nat.sub_le s.nesting_level 1) h.2.1

lemma ok_popN (p : MIME_PARAMS) {junk : Nat} (n : Nat) (s : MIME_STATE) (h : StackDomOK p junk s) :
    StackDomOK p junk (mime_state_popN n s) := by
  induction n generalizing s with
  | zero => exact h
  | succ m ih => exact ih (mime_state_pop s) (ok_pop p s h)

lemma ok_hit (p : MIME_PARAMS) {junk : Nat} (s : MIME_STATE) (tail : List Nat)
    (h : StackDomOK p junk s) : StackDomOK p junk (mime_boundary_hit s tail) := by
  cases hf : mime_stack_find s.stack tail with
  | none => simpa [mime_boundary_hit, hf] using h
  | some i =>
      have h1 := ok_popN p i s h
      simp only [mime_boundary_hit, hf]
      split
      · exact h1
      · split
        · have h2 := ok_pop p _ h1
          exact ⟨h2.1, h2.2.1, Or.inl rfl⟩
        · exact ⟨h1.1, h1.2.1, Or.inl rfl⟩

lemma ok_param_scan (p : MIME_PARAMS) {junk : Nat} (a b : Nat) (fuel : Nat) (s : MIME_STATE)
    (input : List Nat) (h : StackDomOK p junk s) :
    StackDomOK p junk (mime_ctype_param_scan p a b fuel s input) := by
  induction fuel generalizing s input with
  | zero => exact h
  | succ n ih =>
      unfold mime_ctype_param_scan
      cases ht : header_token 3 RFC2045_TSPECIALS 59 input with
      | none => exact h
      | some g =>
          obtain ⟨toks, rest⟩ := g
          dsimp only
          split
          · exact ih _ _ (ok_push p s a b _ h)
          · exact ih _ _ h

lemma ok_content_type (p : MIME_PARAMS) {junk : Nat} (s : MIME_STATE) (info : HeaderInfo)
    (h : StackDomOK p junk s) : StackDomOK p junk (mime_state_content_type p s info) := by
  cases ht : header_token 3 RFC2045_TSPECIALS 59
      (s.output_buffer.drop (info.name.length + 1)) with
  | none =>
      simp only [mime_state_content_type, ht]
      exact ok_carry rfl rfl rfl h
  | some g =>
      obtain ⟨toks, rest⟩ := g
      simp only [mime_state_content_type, ht]
      split_ifs <;> first
        | exact ok_carry rfl rfl rfl h
        | exact ok_param_scan p _ _ _ _ _ (ok_carry rfl rfl rfl h)

/-- Every domain stored in the code_map table is one of the three domain
values. -/
lemma encLookup_domain (v : List Nat) (ed : Nat × Nat)
    (h : encLookup mime_code_map v = some ed) :
    ed.2 = MIME_ENC_7BIT ∨ ed.2 = MIME_ENC_8BIT ∨ ed.2 = MIME_ENC_BINARY := by
  simp only [mime_code_map, encLookup] at h
  split_ifs at h <;> first
    | (cases h; simp [MIME_ENC_7BIT, MIME_ENC_8BIT, MIME_ENC_BINARY])
    | cases h

lemma ok_content_encoding (p : MIME_PARAMS) {junk : Nat} (s : MIME_STATE) (info : HeaderInfo)
    (h : StackDomOK p junk s) : StackDomOK p junk (mime_state_content_encoding s info) := by
  cases ht : header_token 1 LEX_822_SPECIALS 0
      (s.output_buffer.drop (info.name.length + 1)) with
  | none => simpa [mime_state_content_encoding, ht] using h
  | some g =>
      obtain ⟨toks, rest⟩ := g
      cases toks with
      | nil => simpa [mime_state_content_encoding, ht] using h
      | cons tok ts =>
          simp only [mime_state_content_encoding, ht]
          split
          · cases he : encLookup mime_code_map tok.value with
            | none => exact h
            | some ed => exact ⟨h.1, h.2.1, encLookup_domain tok.value ed he⟩
          · exact h

lemma ok_analyze (p : MIME_PARAMS) {junk : Nat} (s : MIME_STATE) (h : StackDomOK p junk s) :
    StackDomOK p junk (mime_header_analyze p s) := by
  unfold mime_header_analyze
  split
  · cases hi : header_opts_find s.output_buffer with
    | none => exact h
    | some i =>
        dsimp only
        split_ifs
        · exact ok_content_type p s i h
        · exact ok_content_encoding p s i h
        · exact h
  · exact h

lemma ok_check8 (p : MIME_PARAMS) {junk : Nat} (s : MIME_STATE) (h : StackDomOK p junk s) :
    StackDomOK p junk (mime_header_8bit_check s) := by
  unfold mime_header_8bit_check
  split
  · exact ok_carry rfl rfl rfl h
  · exact h

lemma ok_flush (p : MIME_PARAMS) {junk : Nat} (s : MIME_STATE) (h : StackDomOK p junk s) :
    StackDomOK p junk (mime_header_flush p s).1 := by
  unfold mime_header_flush
  exact ok_carry rfl rfl rfl (ok_check8 p _ (ok_analyze p s h))

lemma ok_enc_domain_check (p : MIME_PARAMS) {junk : Nat} (s : MIME_STATE) (h : StackDomOK p junk s) :
    StackDomOK p junk (mime_encoding_domain_check s) := by
  unfold mime_encoding_domain_check
  split_ifs <;> first
    | exact h
    | exact ok_carry rfl rfl rfl h

lemma ok_next_blank (p : MIME_PARAMS) {junk : Nat} (s : MIME_STATE) (h : StackDomOK p junk s) :
    StackDomOK p junk (mime_next_state_blank s) := by
  unfold mime_next_state_blank
  split_ifs <;> first
    | exact ⟨h.1, h.2.1, Or.inl rfl⟩
    | exact ok_carry rfl rfl rfl h

lemma ok_end_actions (p : MIME_PARAMS) {junk : Nat} (s : MIME_STATE) (iit : Bool)
    (text : List Nat) (h : StackDomOK p junk s) :
    StackDomOK p junk (mime_header_end_actions s iit text).1 := by
  unfold mime_header_end_actions
  dsimp only
  split_ifs <;> first
    | exact ok_next_blank p _ (ok_enc_domain_check p _ (ok_carry rfl rfl rfl h))
    | exact ok_next_blank p _ (ok_enc_domain_check p _ h)
    | exact ok_carry rfl rfl rfl (ok_enc_domain_check p _ (ok_carry rfl rfl rfl h))
    | exact ok_carry rfl rfl rfl (ok_enc_domain_check p _ h)

lemma ok_header_case (p : MIME_PARAMS) {junk : Nat} (s : MIME_STATE) (text : List Nat)
    (iit : Bool) (h : StackDomOK p junk s) :
    StackDomOK p junk (mime_header_case p s text iit).1 := by
  unfold mime_header_case
  split
  · unfold mime_header_cont_append
    split_ifs <;> first
      | exact ok_carry rfl rfl rfl h
      | exact h
  · split
    · unfold mime_header_fold_append
      split_ifs <;> first
        | exact ok_carry rfl rfl rfl h
        | exact h
    · have hfl : StackDomOK p junk (if s.output_buffer ≠ [] then mime_header_flush p s
          else (s, [])).1 := by
        split
        · exact ok_flush p s h
        · exact h
      dsimp only
      split
      · exact ok_carry rfl rfl rfl hfl
      · exact ok_end_actions p _ _ _ hfl

lemma ok_downgrade (p : MIME_PARAMS) {junk : Nat} (s : MIME_STATE) (rec_type : Nat)
    (text : List Nat) (h : StackDomOK p junk s) :
    StackDomOK p junk (mime_state_downgrade s rec_type text).1 := by
  unfold mime_state_downgrade
  dsimp only
  split
  · exact ok_carry rfl rfl rfl h
  · exact ok_carry rfl rfl rfl h

lemma ok_scan8 (p : MIME_PARAMS) {junk : Nat} (s : MIME_STATE) (text : List Nat)
    (h : StackDomOK p junk s) : StackDomOK p junk (mime_body_8bit_scan s text) := by
  unfold mime_body_8bit_scan
  split
  · exact ok_carry rfl rfl rfl h
  · exact h

lemma ok_body_case (p : MIME_PARAMS) {junk : Nat} (s : MIME_STATE) (rec_type : Nat)
    (text : List Nat) (iit : Bool) (h : StackDomOK p junk s) :
    StackDomOK p junk (mime_body_case s rec_type text iit).1 := by
  unfold mime_body_case
  split
  · dsimp only
    split
    · split
      · exact ok_carry rfl rfl rfl
          (ok_downgrade p _ rec_type text (ok_hit p _ _ (ok_scan8 p s text h)))
      · exact ok_carry rfl rfl rfl (ok_hit p _ _ (ok_scan8 p s text h))
    · split
      · exact ok_carry rfl rfl rfl
          (ok_downgrade p _ rec_type text (ok_scan8 p s text h))
      · exact ok_carry rfl rfl rfl (ok_scan8 p s text h)
  · exact ok_carry rfl rfl rfl h

lemma ok_update1 (p : MIME_PARAMS) {junk : Nat} (s : MIME_STATE) (rec_type : Nat)
    (text : List Nat) (h : StackDomOK p junk s) :
    StackDomOK p junk (mime_state_update1 p s rec_type text).1 := by
  unfold mime_state_update1
  dsimp only
  split
  · split
    · exact ok_carry rfl rfl rfl (ok_header_case p s text _ h)
    · exact ok_body_case p _ rec_type text _ (ok_header_case p s text _ h)
  · split
    · exact ok_body_case p s rec_type text _ h
    · exact h

lemma ok_update (p : MIME_PARAMS) {junk : Nat} (s : MIME_STATE) (rec_type : Nat)
    (text : List Nat) (h : StackDomOK p junk s) :
    StackDomOK p junk (mime_state_update p s rec_type text).1 := by
  unfold mime_state_update
  dsimp only
  split
  · exact ok_update1 p _ rec_type text (ok_update1 p s REC_TYPE_NORM [] h)
  · exact ok_update1 p s rec_type text h

/-- The invariant survives folding any record sequence. -/
lemma ok_foldl (p : MIME_PARAMS) {junk : Nat} (recs : List (Nat × List Nat)) :
    ∀ s : MIME_STATE, StackDomOK p junk s → StackDomOK p junk (mime_run p s recs) := by
  unfold mime_run
  induction recs with
  | nil => exact fun s h => h
  | cons r rs ih =>
      intro s h
      simp only [List.foldl_cons]
      exact ih _ (ok_update p s r.1 r.2 h)

/-- Every state reached from mime_state_alloc keeps the invariant,
whatever value the allocator left in the nesting level. -/
lemma ok_run (p : MIME_PARAMS) (flags : Nat) (hh hb : Bool) (junk : Nat)
    (recs : List (Nat × List Nat)) :
    StackDomOK p junk (mime_run p (mime_state_alloc flags hh hb junk) recs) :=
  ok_foldl p recs _
    ⟨by simp [mime_state_alloc], le_max_right (p.var_mime_maxdepth + 1) junk,
     Or.inl rfl⟩

/-- C2 (a code bug): mime_state_alloc never writes nesting_level, so the
field starts out as whatever the allocator returned. With junk value 21
and a maximum depth of 20, the freshly built machine already violates
both halves of the claimed invariant, and still does after an update call
that pushes and pops nothing. -/
theorem claim2_uninit_nesting :
    (mime_state_alloc 0 false false 21).nesting_level
      ≠ (mime_state_alloc 0 false false 21).stack.length
    ∧ (mime_state_alloc 0 false false 21).nesting_level
      > (⟨2000, 20, 2000⟩ : MIME_PARAMS).var_mime_maxdepth
    ∧ (mime_state_update ⟨2000, 20, 2000⟩ (mime_state_alloc 0 false false 21)
        REC_TYPE_NORM (bytesOf "hello")).1.nesting_level = 21
    ∧ (mime_state_update ⟨2000, 20, 2000⟩ (mime_state_alloc 0 false false 21)
        REC_TYPE_NORM (bytesOf "hello")).1.stack.length = 0 := by
  refine ⟨by decide, by decide, by decide, by decide⟩

/-- Even with the nesting level zeroed at allocation, one multipart
Content-Type header under var_mime_maxdepth 0 drives the level to
maxdepth + 1 without raising MIME_ERR_NESTING: the push guard refuses
only strictly above the maximum. -/
lemma nesting_can_exceed_maxdepth :
    (mime_run ⟨2000, 0, 2000⟩ (mime_state_alloc 0 false false 0)
        [(REC_TYPE_NORM, bytesOf "Content-Type: multipart/mixed; boundary=x"),
         (REC_TYPE_NORM, [])]).nesting_level = 1
    ∧ (1 : Nat) > (⟨2000, 0, 2000⟩ : MIME_PARAMS).var_mime_maxdepth
    ∧ (mime_run ⟨2000, 0, 2000⟩ (mime_state_alloc 0 false false 0)
        [(REC_TYPE_NORM, bytesOf "Content-Type: multipart/mixed; boundary=x"),
         (REC_TYPE_NORM, [])]).err_flags = 0 := by
  refine ⟨by decide, by decide, by decide⟩

/-- With the nesting level zeroed at allocation, the level tracks the
stack depth and stays within one step of the configured maximum over
every record sequence. -/
lemma stack_invariant_zero_init (p : MIME_PARAMS) (flags : Nat) (hh hb : Bool)
    (recs : List (Nat × List Nat)) :
    (mime_run p (mime_state_alloc flags hh hb 0) recs).nesting_level
      = (mime_run p (mime_state_alloc flags hh hb 0) recs).stack.length
    ∧ (mime_run p (mime_state_alloc flags hh hb 0) recs).nesting_level
      ≤ p.var_mime_maxdepth + 1 := by
  have h := ok_run p flags hh hb 0 recs
  exact ⟨by simpa using h.1, by simpa using h.2.1⟩

/-- C7: after construction and after every update sequence the current
encoding domain is SevenBit, EightBit or Binary, never a transformation
code or anything else, whatever indeterminate value the allocator left in
the nesting level. -/
theorem claim7_domain_invariant (p : MIME_PARAMS) (flags : Nat) (hh hb : Bool)
    (junk : Nat) (recs : List (Nat × List Nat)) :
    (mime_run p (mime_state_alloc flags hh hb junk) recs).curr_domain
      = MIME_ENC_7BIT
    ∨ (mime_run p (mime_state_alloc flags hh hb junk) recs).curr_domain
      = MIME_ENC_8BIT
    ∨ (mime_run p (mime_state_alloc flags hh hb junk) recs).curr_domain
      = MIME_ENC_BINARY :=
  (ok_run p flags hh hb junk recs).2.2
